import Mathlib

/-!
Verification of the Applesoft BASIC interpreter core (applesoft.py).

The interpreter is embedded shallowly at the level of already-tokenized
statements: the Python source splits each program line into colon-separated
statement parts and dispatches on the first keyword; here a program line is a
list of `Stmt` values and the dispatch of `execute_single_statement` together
with the individual `cmd_*` methods is translated into Lean functions over an
explicit interpreter state.  Numbers are modelled by the rationals (the source
uses IEEE doubles; every computation examined here is exact), Python byte
memory by a function from addresses to naturals, and Python dictionaries by
association lists in insertion order.  Python exceptions that are not
`ApplesoftError` (for example `IndexError` from a list subscript) are modelled
by a separate error constructor, since the run loop of the source catches only
`ApplesoftError`.  The unbounded `while` loops of the source (`run` and the
tight-loop fast path of `cmd_next`) are given an explicit fuel; exhausting the
fuel is a third, clearly separated outcome that no theorem below relies on.
-/

namespace Applesoft

set_option maxHeartbeats 2000000

/-- A tagged value: Number (modelled by the rationals) or String,
mirroring the `Union[float, str]` values of the source. -/
inductive Value where
  | num (q : ℚ)
  | str (s : String)
deriving DecidableEq

/-- Expressions, mirroring the fragment of `evaluate` / `evaluate_arithmetic` /
`evaluate_function` exercised by the claims: literals, scalar variables,
one-dimensional array references, the four arithmetic operators, `PEEK` and
`INT`. -/
inductive Expr where
  | num (q : ℚ)
  | strLit (s : String)
  | var (name : String)
  | arrRef (name : String) (idx : Expr)
  | add (a b : Expr)
  | sub (a b : Expr)
  | mul (a b : Expr)
  | div (a b : Expr)
  | peek (a : Expr)
  | intF (a : Expr)

/-- Items of a `PRINT` statement as produced by `parse_print_items`:
expressions separated by semicolons and commas. -/
inductive PrintItem where
  | semi
  | comma
  | item (e : Expr)

/-- Statement parts, mirroring the dispatch of `execute_single_statement`.
`ifThen` carries either a bare target line (the `action.isdigit()` branch of
`cmd_if`) or the list of statement parts of the action. -/
inductive Stmt where
  | print (items : List PrintItem) (endsWithSep : Bool)
  | letVar (name : String) (e : Expr)
  | letArr (name : String) (idx : Expr) (e : Expr)
  | goto (target : Expr)
  | gosub (target : Expr)
  | ret
  | ifThen (cond : Expr) (actionLine : Option ℕ) (actionStmts : List Stmt)
  | forLoop (v : String) (startE : Expr) (endE : Expr) (stepE : Option Expr)
  | next (v : Option String)
  | onerrGoto (n : ℕ)
  | stop
  | poke (addrE : Expr) (valE : Expr)

/-- A frame of the FOR stack (`loop_info` in `cmd_for`): variable, limit,
step, line of the FOR, and the statement index at which each iteration
re-enters the line.  Limit and step are stored as evaluated values, exactly
as the source stores the results of `self.evaluate`. -/
structure ForFrame where
  var : String
  endV : Value
  stepV : Value
  line : ℕ
  resumePart : ℕ
deriving DecidableEq

/-- Errors: `applesoft msg` is an `ApplesoftError` (caught by the run loop),
`pyExc kind` is any other Python exception (`IndexError`, `TypeError`, ...),
which the run loop of the source does not catch, and `fuelOut` marks
exhaustion of the explicit fuel of the embedding. -/
inductive RunErr where
  | applesoft (msg : String)
  | pyExc (kind : String)
  | fuelOut
deriving DecidableEq

/-- The interpreter state: the fields of `ApplesoftInterpreter` initialized in
`reset` that the modelled fragment reads or writes, plus `output`, the text
written to standard output by `print` calls of the source.  The top of the
Python `for_stack` / `gosub_stack` (list index -1) is the head of the Lean
list. -/
structure InterpState where
  program : List (ℕ × List Stmt)
  vars : List (String × Value)
  arrays : List (String × List Value)
  memory : ℕ → ℕ
  pc : ℕ
  running : Bool
  dataPointer : ℕ
  pcChanged : Bool
  pendingStatementIndex : Option ℕ
  currentPartIndex : ℕ
  errorHandlerLine : Option ℕ
  lastError : Option String
  forStack : List ForFrame
  gosubStack : List (ℕ × ℕ)
  currentLine : ℕ
  graphicsMode : String
  textX : ℕ
  textY : ℕ
  inverse : Bool
  flash : Bool
  hgrMixed : Bool
  hgrPage : ℕ
  output : String

/-- Python `int(x)` on a float: truncation toward zero. -/
def pyInt (q : ℚ) : ℤ := if 0 ≤ q then ⌊q⌋ else ⌈q⌉

/-- Coerce a value to an integer as `int(self.evaluate(...))` does.  A string
argument raises a Python-level error (numeric strings, which `int` would
parse, are outside the modelled fragment). -/
def asInt (v : Value) : Except RunErr ℤ :=
  match v with
  | .num q => .ok (pyInt q)
  | .str _ => .error (.pyExc ("ValueError"))

/-- Coerce a value to a number as `float(...)` does; a string argument raises
a Python-level error (same caveat as `asInt`). -/
def asQ (v : Value) : Except RunErr ℚ :=
  match v with
  | .num q => .ok q
  | .str _ => .error (.pyExc ("ValueError"))

/-- Address normalization of `cmd_poke` and the `PEEK` branch of
`evaluate_function`: a negative address is first folded by
`(addr + 65536) % 65536` (Python `%`, always nonnegative, which is the
semantics of `%` on `Int` in Lean), then
`addr & 0xFFFF` is applied; on the nonnegative intermediate value that mask
equals reduction modulo 65536. -/
def normAddr (a : ℤ) : ℕ :=
  ((if a < 0 then (a + 65536) % 65536 else a) % 65536).toNat

/-- Python `v & 0xFF` on an arbitrary integer: the low byte, i.e. reduction
modulo 256 (two's-complement semantics for negative values). -/
def lowByte (v : ℤ) : ℕ := (v % 256).toNat

/-- Pointwise update of the byte memory. -/
def updMem (m : ℕ → ℕ) (a v : ℕ) : ℕ → ℕ :=
  fun i => if i = a then v else m i

/-- Update of an association list in Python-dict style: an existing key keeps
its position, a new key is appended. -/
def setAssoc {α : Type} : List (String × α) → String → α → List (String × α)
  | [], k, v => [(k, v)]
  | (k1, v1) :: rest, k, v =>
      if k1 = k then (k, v) :: rest else (k1, v1) :: setAssoc rest k v

/-- Read a scalar variable. -/
def lookupVar (s : InterpState) (n : String) : Option Value :=
  s.vars.lookup n

/-- Write a scalar variable. -/
def setVar (s : InterpState) (n : String) (v : Value) : InterpState :=
  { s with vars := setAssoc s.vars n v }

/-- Read an array from the array store. -/
def lookupArr (s : InterpState) (n : String) : Option (List Value) :=
  s.arrays.lookup n

/-- Write an array to the array store. -/
def setArr (s : InterpState) (n : String) (a : List Value) : InterpState :=
  { s with arrays := setAssoc s.arrays n a }

/-- Look up the statement list of a program line. -/
def lookupLine (prog : List (ℕ × List Stmt)) (n : ℕ) : Option (List Stmt) :=
  prog.lookup n

/-- Python list subscript read `l[i]`: nonnegative indices from the front,
negative indices from the back, anything else is an `IndexError` (`none`). -/
def pyListGet {α : Type} (l : List α) (i : ℤ) : Option α :=
  if 0 ≤ i then l.get? i.toNat
  else if 0 ≤ i + l.length then l.get? (i + l.length).toNat
  else none

/-- Python list subscript write `l[i] = v`, with the same index rule as
`pyListGet`. -/
def pyListSet {α : Type} (l : List α) (i : ℤ) (v : α) : Option (List α) :=
  if 0 ≤ i ∧ i < l.length then some (l.set i.toNat v)
  else if 0 ≤ i + l.length ∧ i < 0 then some (l.set (i + l.length).toNat v)
  else none

/-- The fresh auto-dimensioned array `[0] * 11` of the source. -/
def autoArr : List Value := List.replicate 11 (Value.num 0)

/-- Python `str(...)` of a value, used by the string-concatenation branch of
`evaluate` (approximate for non-integral floats, which no claim exercises). -/
def pyStrOfValue (v : Value) : String :=
  match v with
  | .str t => t
  | .num q => if q.den = 1 then toString q.num ++ (".0") else toString q.num

/-- Result type of expression evaluation: either a value and the possibly
mutated state, or an error together with the state at the moment the Python
exception was raised (the Python object is mutated in place, so the handler
in `run` observes exactly that state). -/
abbrev EvalRes := Except (RunErr × InterpState) (Value × InterpState)

/-- The special-address dispatch of the `PEEK` branch of `evaluate_function`
(lines 2598-2689 of the source), after address normalization.  The branches
that return a constant 0 (keyboard, joystick, speaker, cassette, strobe,
error code 222) are kept; address 216 reports the armed error handler,
addresses 218/219 report the low and high byte of `self.current_line` when
`self.last_error` is set, 36/37 report the text cursor; everything else reads
the byte memory. -/
def peekCore (addr : ℕ) (s : InterpState) : ℚ × InterpState :=
  if addr = 49152 then (0, s)
  else if addr = 49168 then
    (0, { s with memory := updMem s.memory 49152 (s.memory 49152 % 128) })
  else if addr = 49249 ∨ addr = 49250 ∨ addr = 49251 ∨ addr = 49252 ∨
          addr = 49248 ∨ addr = 49272 ∨ addr = 49200 ∨ addr = 49184 then (0, s)
  else if addr = 216 then
    (if s.errorHandlerLine.isSome then 128 else 0, s)
  else if addr = 218 then
    (((if s.lastError.isSome then s.currentLine else 0) % 256 : ℕ), s)
  else if addr = 219 then
    ((((if s.lastError.isSome then s.currentLine else 0) / 256) % 256 : ℕ), s)
  else if addr = 222 then (0, s)
  else if addr = 36 then ((s.textX : ℚ), s)
  else if addr = 37 then ((s.textY : ℚ), s)
  else ((s.memory addr : ℚ), s)

/-- Evaluation of expressions, mirroring `evaluate`, `evaluate_arithmetic` and
`evaluate_function` on the modelled fragment.  An unset numeric variable
reads as 0, an unset string variable as the empty string; a first array
reference auto-dimensions with `[0] * 11` before the subscript is applied;
`+` concatenates when either operand is a string; division by zero raises the
`ApplesoftError` Division by zero; `INT` truncates toward zero via Python
`int`; `PEEK` normalizes the address and dispatches through `peekCore`. -/
def evalExpr : InterpState → Expr → EvalRes
  | s, .num q => .ok (.num q, s)
  | s, .strLit t => .ok (.str t, s)
  | s, .var n =>
      match lookupVar s n with
      | some v => .ok (v, s)
      | none =>
          if String.endsWith n ("$") then .ok (.str (""), s) else .ok (.num 0, s)
  | s, .arrRef n ie =>
      match evalExpr s ie with
      | .error e => .error e
      | .ok (iv, s1) =>
        match asInt iv with
        | .error er => .error (er, s1)
        | .ok i =>
          let s2 := if (lookupArr s1 n).isSome then s1 else setArr s1 n autoArr
          match pyListGet ((lookupArr s2 n).getD []) i with
          | some v => .ok (v, s2)
          | none => .error (.pyExc ("IndexError"), s2)
  | s, .add a b =>
      match evalExpr s a with
      | .error e => .error e
      | .ok (va, s1) =>
        match evalExpr s1 b with
        | .error e => .error e
        | .ok (vb, s2) =>
          match va, vb with
          | .num x, .num y => .ok (.num (x + y), s2)
          | _, _ => .ok (.str (pyStrOfValue va ++ pyStrOfValue vb), s2)
  | s, .sub a b =>
      match evalExpr s a with
      | .error e => .error e
      | .ok (va, s1) =>
        match evalExpr s1 b with
        | .error e => .error e
        | .ok (vb, s2) =>
          match asQ va with
          | .error er => .error (er, s2)
          | .ok x =>
            match asQ vb with
            | .error er => .error (er, s2)
            | .ok y => .ok (.num (x - y), s2)
  | s, .mul a b =>
      match evalExpr s a with
      | .error e => .error e
      | .ok (va, s1) =>
        match evalExpr s1 b with
        | .error e => .error e
        | .ok (vb, s2) =>
          match asQ va with
          | .error er => .error (er, s2)
          | .ok x =>
            match asQ vb with
            | .error er => .error (er, s2)
            | .ok y => .ok (.num (x * y), s2)
  | s, .div a b =>
      match evalExpr s a with
      | .error e => .error e
      | .ok (va, s1) =>
        match evalExpr s1 b with
        | .error e => .error e
        | .ok (vb, s2) =>
          match asQ va with
          | .error er => .error (er, s2)
          | .ok x =>
            match asQ vb with
            | .error er => .error (er, s2)
            | .ok y =>
              if y = 0 then .error (.applesoft ("Division by zero"), s2)
              else .ok (.num (x / y), s2)
  | s, .peek ae =>
      match evalExpr s ae with
      | .error e => .error e
      | .ok (av, s1) =>
        match asInt av with
        | .error er => .error (er, s1)
        | .ok i =>
          let r := peekCore (normAddr i) s1
          .ok (.num r.1, r.2)
  | s, .intF ae =>
      match evalExpr s ae with
      | .error e => .error e
      | .ok (av, s1) =>
        match asInt av with
        | .error er => .error (er, s1)
        | .ok i => .ok (.num (i : ℚ), s1)

/-- Projection used by claim statements: the numeric result of evaluating an
expression, when evaluation succeeds with a number. -/
def evalNum (s : InterpState) (e : Expr) : Option ℚ :=
  match evalExpr s e with
  | .ok (.num q, _) => some q
  | _ => none

/-- Result type of statement execution: the new state, or an error with the
state at the moment it was raised. -/
abbrev ExecRes := Except (RunErr × InterpState) InterpState

/-- Rounding half to even, as Python fixed-point formatting does on ties. -/
def roundHalfEven (q : ℚ) : ℤ :=
  if q - ⌊q⌋ < 1 / 2 then ⌊q⌋
  else if q - ⌊q⌋ > 1 / 2 then ⌊q⌋ + 1
  else if ⌊q⌋ % 2 = 0 then ⌊q⌋ else ⌊q⌋ + 1

/-- Strip trailing occurrences of one character, like Python `rstrip`. -/
def rstripChar (s : String) (c : Char) : String :=
  String.mk ((s.toList.reverse.dropWhile (fun x => x == c)).reverse)

/-- Render a number to six fixed decimal places, the inner step of the
non-integral branch of `format_number`. -/
def formatFixed6 (q : ℚ) : String :=
  let scaled := roundHalfEven (q * 1000000)
  let m := scaled.natAbs
  let frac := toString (m % 1000000)
  (if scaled < 0 then ("-") else ("")) ++ toString (m / 1000000) ++ (".") ++
    String.mk (List.replicate (6 - frac.length) ('0')) ++ frac

/-- Number formatting of `format_number`: an integral value prints as
`str(int(n))`, otherwise six fixed decimals with trailing zeros and a
trailing dot removed. -/
def formatNumber (q : ℚ) : String :=
  if q.den = 1 then toString q.num
  else rstripChar (rstripChar (formatFixed6 q) ('0')) ('.')

/-- A run of `n` spaces. -/
def spacesStr (n : ℕ) : String := String.mk (List.replicate n (' '))

/-- Rendering of one evaluated `PRINT` item (`cmd_print`): a nonnegative
number gets a leading space, every number gets a trailing space, a string
prints verbatim. -/
def printValueStr (v : Value) : String :=
  match v with
  | .num q =>
      if 0 ≤ q then (" ") ++ formatNumber q ++ (" ") else formatNumber q ++ (" ")
  | .str t => t

/-- The item loop of `cmd_print`: semicolons are skipped, a comma pads to the
next 10-column zone of the text accumulated so far (only when something has
been accumulated), expressions are evaluated and rendered. -/
def printItemsLoop : InterpState → List PrintItem → List String → Except (RunErr × InterpState) (List String × InterpState)
  | s, [], acc => .ok (acc, s)
  | s, .semi :: rest, acc => printItemsLoop s rest acc
  | s, .comma :: rest, acc =>
      if acc.isEmpty then printItemsLoop s rest acc
      else printItemsLoop s rest (acc ++ [spacesStr (10 - (String.join acc).length % 10)])
  | s, .item e :: rest, acc =>
      match evalExpr s e with
      | .error er => .error er
      | .ok (v, s1) => printItemsLoop s1 rest (acc ++ [printValueStr v])

/-- The `PRINT` command (`cmd_print`).  With no items the source writes a
newline only to the pygame surface, not to standard output.  Otherwise the
items are rendered, concatenated and written to standard output, with a
newline unless the argument text ended in a separator.  An exception during
item evaluation discards the pending text (the source prints only after the
whole item list has been evaluated). -/
def cmdPrint (s : InterpState) (items : List PrintItem) (endsWithSep : Bool) : ExecRes :=
  if items.isEmpty then .ok s
  else
    match printItemsLoop s items [] with
    | .error e => .error e
    | .ok (acc, s1) =>
        .ok { s1 with output :=
                s1.output ++ String.join acc ++ (if endsWithSep then ("") else ("\n")) }

/-- Scalar assignment (`cmd_let`, simple-variable branch): evaluate and store,
with no type check. -/
def cmdLetVar (s : InterpState) (n : String) (e : Expr) : ExecRes :=
  match evalExpr s e with
  | .error er => .error er
  | .ok (v, s1) => .ok (setVar s1 n v)

/-- Array-element assignment (`cmd_let`, array branch): evaluate the
subscript, then the right-hand side, auto-dimension to `[0] * 11` when the
array does not exist, then write through Python list subscript semantics
(negative subscripts wrap from the back; out of range raises `IndexError`,
not an `ApplesoftError`). -/
def cmdLetArr (s : InterpState) (n : String) (ie : Expr) (e : Expr) : ExecRes :=
  match evalExpr s ie with
  | .error er => .error er
  | .ok (iv, s1) =>
    match asInt iv with
    | .error er => .error (er, s1)
    | .ok i =>
      match evalExpr s1 e with
      | .error er => .error er
      | .ok (v, s2) =>
        let s3 := if (lookupArr s2 n).isSome then s2 else setArr s2 n autoArr
        match pyListSet ((lookupArr s3 n).getD []) i v with
        | some a => .ok (setArr s3 n a)
        | none => .error (.pyExc ("IndexError"), s3)

/-- The `GOTO` dispatch of `cmd_if` for a bare numeric action
(`action.isdigit()` guarantees a nonnegative target). -/
def cmdGotoNat (s : InterpState) (n : ℕ) : ExecRes :=
  if (lookupLine s.program n).isNone then
    .error (.applesoft (("Undefined statement: ") ++ toString n), s)
  else .ok { s with pc := n }

/-- The `GOTO` command (`cmd_goto`): evaluate the target; a target absent
from the program store raises Undefined statement with the state untouched;
otherwise only `pc` is set (`cmd_goto` does not set `pc_changed`). -/
def cmdGoto (s : InterpState) (te : Expr) : ExecRes :=
  match evalExpr s te with
  | .error er => .error er
  | .ok (v, s1) =>
    match asInt v with
    | .error er => .error (er, s1)
    | .ok tgt =>
      if tgt < 0 ∨ (lookupLine s1.program tgt.toNat).isNone then
        .error (.applesoft (("Undefined statement: ") ++ toString tgt), s1)
      else .ok { s1 with pc := tgt.toNat }

/-- The `GOSUB` command (`cmd_gosub`): check the target, push the frame
`(current line, current part index + 1)` and only then jump, setting
`pc_changed`. -/
def cmdGosub (s : InterpState) (te : Expr) : ExecRes :=
  match evalExpr s te with
  | .error er => .error er
  | .ok (v, s1) =>
    match asInt v with
    | .error er => .error (er, s1)
    | .ok tgt =>
      if tgt < 0 ∨ (lookupLine s1.program tgt.toNat).isNone then
        .error (.applesoft (("Undefined statement: ") ++ toString tgt), s1)
      else
        .ok { s1 with gosubStack := (s1.pc, s1.currentPartIndex + 1) :: s1.gosubStack,
                      pc := tgt.toNat, pcChanged := true }

/-- The `RETURN` command (`cmd_return`): an empty stack raises Return without
gosub; otherwise the top frame is popped and execution resumes at its saved
`(line, part)` through `pending_statement_index`. -/
def cmdReturn (s : InterpState) : ExecRes :=
  match s.gosubStack with
  | [] => .error (.applesoft ("Return without gosub"), s)
  | (l, p) :: rest =>
      .ok { s with gosubStack := rest, pc := l,
                   pendingStatementIndex := some p, pcChanged := true }

/-- Initialization branch of `cmd_for`: evaluate start, limit and step
(default 1), set the loop variable and push the frame, whose resume part is
the index of the FOR statement itself. -/
def cmdForInit (s : InterpState) (v : String) (startE endE : Expr) (stepE : Option Expr) : ExecRes :=
  match evalExpr s startE with
  | .error er => .error er
  | .ok (sv, s1) =>
    match evalExpr s1 endE with
    | .error er => .error er
    | .ok (ev, s2) =>
      match (match stepE with
             | none => .ok (Value.num 1, s2)
             | some se => evalExpr s2 se : EvalRes) with
      | .error er => .error er
      | .ok (stv, s3) =>
        let s4 := setVar s3 v sv
        .ok { s4 with forStack :=
                ⟨v, ev, stv, s4.pc, s4.currentPartIndex⟩ :: s4.forStack }

/-- The `FOR` command (`cmd_for`): when the top frame is for the same line
and same variable the statement is a re-entry from `NEXT` and does nothing;
otherwise the loop is initialized. -/
def cmdFor (s : InterpState) (v : String) (startE endE : Expr) (stepE : Option Expr) : ExecRes :=
  match s.forStack.head? with
  | some top =>
      if top.line = s.pc ∧ top.var = v then .ok s
      else cmdForInit s v startE endE stepE
  | none => cmdForInit s v startE endE stepE

/-- The inner `while True` of the tight-loop fast path of `cmd_next`: add the
step to the loop variable and stop as soon as the termination test holds. -/
def fastCountdown : ℕ → InterpState → String → ℚ → ℚ → ExecRes
  | 0, s, _, _, _ => .error (.fuelOut, s)
  | fuel + 1, s, v, endQ, stepQ =>
    match lookupVar s v with
    | some (.num cur) =>
        let s1 := setVar s v (.num (cur + stepQ))
        if (if 0 < stepQ then endQ < cur + stepQ else cur + stepQ < endQ) then .ok s1
        else fastCountdown fuel s1 v endQ stepQ
    | some (.str _) => .error (.pyExc ("TypeError"), s)
    | none => .error (.pyExc ("KeyError"), s)

/-- Successor line in program order (`get_next_line`). -/
def getNextLine : List (ℕ × List Stmt) → ℕ → Option ℕ
  | [], _ => none
  | (k, _) :: rest, n =>
      if k = n then rest.head?.map (fun kv => kv.1) else getNextLine rest n

/-- The `NEXT` command (`cmd_next`).  A named variable that differs from the
top frame raises Next without for.  The fast path (taken when `fast` is true,
which is how the source behaves) fires when the line after the FOR line is
exactly the line holding this NEXT; it then counts the loop down inside
`fastCountdown` and pops the frame, without executing any other statement.
With `fast` false the branch is skipped: this is the plain single-stepping
path of the same function (increment, test, and on continuation jump back to
the saved `(line, resume part)`). -/
def cmdNext (fast : Bool) (fuel : ℕ) (s : InterpState) (vOpt : Option String) : ExecRes :=
  match s.forStack with
  | [] => .error (.applesoft ("Next without for"), s)
  | loop :: restFrames =>
    if (match vOpt with | some v => v != loop.var | none => false) then
      .error (.applesoft ("Next without for"), s)
    else
      match asQ loop.endV, asQ loop.stepV with
      | .ok endQ, .ok stepQ =>
        if fast ∧ getNextLine s.program loop.line = some s.pc ∧ loop.line ≠ s.pc then
          match fastCountdown fuel s loop.var endQ stepQ with
          | .error e => .error e
          | .ok s1 => .ok { s1 with forStack := restFrames }
        else
          match lookupVar s loop.var with
          | some (.num cur) =>
              let s1 := setVar s loop.var (.num (cur + stepQ))
              if (if 0 < stepQ then endQ < cur + stepQ else cur + stepQ < endQ) then
                .ok { s1 with forStack := restFrames }
              else
                .ok { s1 with pc := loop.line,
                              pendingStatementIndex := some loop.resumePart,
                              pcChanged := true }
          | some (.str _) => .error (.pyExc ("TypeError"), s)
          | none => .error (.pyExc ("KeyError"), s)
      | _, _ => .error (.pyExc ("TypeError"), s)

/-- The soft-switch dispatch of `cmd_poke` after the byte has been stored:
the branches of the source that mutate interpreter state (text attribute 50,
cursor 36/37, graphics switches 49232-49239, error-handler reset 216); the
remaining branches of the chain are `pass` and fall through to the identity.
Each switch also has a negative alias in the source
(`addr == X or addr == ((X - 65536 + 65536) % 65536)`), which denotes the
same normalized address and so collapses into a single test here. -/
def pokeEffects (addr : ℕ) (val : ℕ) (s : InterpState) : InterpState :=
  if addr = 50 then
    if val = 63 then { s with inverse := true, flash := false }
    else if val = 127 then { s with flash := true, inverse := false }
    else if val = 255 then { s with inverse := false, flash := false }
    else s
  else if addr = 36 then { s with textX := val % 40 }
  else if addr = 37 then { s with textY := val % 24 }
  else if addr = 49232 then { s with graphicsMode := ("TEXT") }
  else if addr = 49233 then
    (if s.graphicsMode ≠ ("HGR") ∧ s.graphicsMode ≠ ("HGR2") then
       { s with graphicsMode := ("GR") } else s)
  else if addr = 49234 then { s with hgrMixed := false }
  else if addr = 49235 then { s with hgrMixed := true }
  else if addr = 49236 then { s with hgrPage := 1 }
  else if addr = 49237 then { s with hgrPage := 2 }
  else if addr = 49238 then
    (if s.graphicsMode ≠ ("TEXT") then { s with graphicsMode := ("GR") } else s)
  else if addr = 49239 then
    { s with graphicsMode := if s.hgrPage = 1 then ("HGR") else ("HGR2") }
  else if addr = 216 then
    (if val = 0 then { s with errorHandlerLine := none,
                              memory := updMem s.memory 216 val }
     else { s with memory := updMem s.memory 216 val })
  else s

/-- Core of `cmd_poke` on already-evaluated integers: mask the value to a
byte, normalize the address, store the byte, then apply the soft-switch
side effects.  No value is ever rejected (there is no Illegal Quantity check
in the source). -/
def cmdPoke (addrI valI : ℤ) (s : InterpState) : InterpState :=
  let val := lowByte valI
  let addr := normAddr addrI
  pokeEffects addr val { s with memory := updMem s.memory addr val }

/-- The `POKE` statement (`cmd_poke`): evaluate the address, then the value,
then run the core. -/
def cmdPokeStmt (s : InterpState) (ae ve : Expr) : ExecRes :=
  match evalExpr s ae with
  | .error e => .error e
  | .ok (av, s1) =>
    match asInt av with
    | .error er => .error (er, s1)
    | .ok ai =>
      match evalExpr s1 ve with
      | .error e => .error e
      | .ok (vv, s2) =>
        match asInt vv with
        | .error er => .error (er, s2)
        | .ok vi => .ok (cmdPoke ai vi s2)

/-- Python truthiness of a value (`if result:` in `cmd_if`). -/
def truthy : Value → Bool
  | .num q => q != 0
  | .str t => t != ("")

mutual

/-- Dispatch of `execute_single_statement` over the modelled statements.
`fast` selects whether `cmd_next` may take its tight-loop fast path (the
source always does; `false` gives the plain single-stepping reference named
by the specification).  The fuel only bounds the recursion through `IF`
actions, `NEXT` countdowns and the run loop. -/
def execStmt : Bool → ℕ → InterpState → Stmt → ExecRes
  | _, 0, s, _ => .error (.fuelOut, s)
  | fast, fuel + 1, s, st =>
    match st with
    | .print items sep => cmdPrint s items sep
    | .letVar n e => cmdLetVar s n e
    | .letArr n ie e => cmdLetArr s n ie e
    | .goto te => cmdGoto s te
    | .gosub te => cmdGosub s te
    | .ret => cmdReturn s
    | .ifThen c al acts =>
      (match evalExpr s c with
       | .error er => .error er
       | .ok (v, s1) =>
         if truthy v then
           match al with
           | some n => cmdGotoNat s1 n
           | none => execParts fast fuel s1 acts 0
         else .ok s1)
    | .forLoop v a b st2 => cmdFor s v a b st2
    | .next v => cmdNext fast fuel s v
    | .onerrGoto n => .ok { s with errorHandlerLine := some n }
    | .stop => .ok { s with running := false }
    | .poke ae ve => cmdPokeStmt s ae ve

/-- The part loop of `execute_statement`: execute the parts of a line from
`start_index`, recording `current_part_index`, and stop early as soon as a
part set `pc_changed`. -/
def execParts : Bool → ℕ → InterpState → List Stmt → ℕ → ExecRes
  | _, 0, s, _, _ => .error (.fuelOut, s)
  | _, _ + 1, s, [], _ => .ok s
  | fast, fuel + 1, s, p :: rest, idx =>
    match execStmt fast fuel { s with currentPartIndex := idx } p with
    | .error e => .error e
    | .ok s2 =>
        if s2.pcChanged then .ok s2 else execParts fast fuel s2 rest (idx + 1)

end

/-- First line at or after a given line number, mirroring the scan of the run
loop for a `pc` that is not a key of the program store. -/
def findLineGE : List (ℕ × List Stmt) → ℕ → Option ℕ
  | [], _ => none
  | (k, _) :: rest, n => if n ≤ k then some k else findLineGE rest n

/-- Current-line resolution of the run loop: `pc` itself when it is a program
line, otherwise the first later line; `none` ends the run. -/
def findCurrentLine (prog : List (ℕ × List Stmt)) (pcv : ℕ) : Option ℕ :=
  if (lookupLine prog pcv).isSome then some pcv else findLineGE prog pcv

/-- The fetch-execute loop of `run` (lines 315-397 of the source, with the
timeout, pygame-event and screenshot hooks outside the model).  One iteration
resolves the current line, records it in `current_line`, clears `pc_changed`
and consumes `pending_statement_index`, executes the parts of the line, and
then: advances to the next line when the line did not change the pc,
continues at the new pc otherwise, redirects an `ApplesoftError` to the
installed handler (latching the message into `last_error`), or, with no
handler, prints the two-line diagnostic and stops.  A Python-level exception
propagates out of the loop. -/
def runLoop (fast : Bool) : ℕ → InterpState → ExecRes
  | 0, s => .error (.fuelOut, s)
  | fuel + 1, s =>
    if s.running then
      match findCurrentLine s.program s.pc with
      | none => .ok { s with running := false }
      | some l =>
        let parts := (lookupLine s.program l).getD []
        let nextLine := getNextLine s.program l
        let startIndex := s.pendingStatementIndex.getD 0
        let s1 := { s with pc := l, currentLine := l, pcChanged := false,
                           pendingStatementIndex := none }
        match execParts fast fuel s1 (parts.drop startIndex) startIndex with
        | .ok s2 =>
          if s2.pc = l ∧ s2.pcChanged = false then
            match nextLine with
            | none => .ok { s2 with running := false }
            | some nl => runLoop fast fuel { s2 with pc := nl }
          else runLoop fast fuel s2
        | .error (.applesoft msg, s2) =>
          (match s2.errorHandlerLine with
           | some h => runLoop fast fuel { s2 with pc := h, lastError := some msg }
           | none =>
             let diag :=
               (if s2.currentLine ≠ 0 then
                  ("SYNTAX ERROR IN ") ++ toString s2.currentLine
                else ("SYNTAX ERROR")) ++ ("\n") ++
               ("Detail: ") ++ msg ++ ("\n")
             .ok { s2 with running := false, output := s2.output ++ diag })
        | .error e => .error e
    else .ok s

/-- The initialization of `run` before the loop: set `running`, reset the
DATA pointer, clear the FOR and GOSUB stacks, and start at the first program
line.  Scalar variables and arrays are NOT touched by `run`. -/
def runInit (s : InterpState) : InterpState :=
  { s with running := true, dataPointer := 0, forStack := [], gosubStack := [],
           pc := match s.program.head? with
                 | some kv => kv.1
                 | none => s.pc }

/-- Run a program from a given prior interpreter state: `run` returns at once
when the program store is empty, otherwise initializes and enters the loop. -/
def runProgramFrom (fast : Bool) (fuel : ℕ) (s : InterpState) : ExecRes :=
  if s.program.isEmpty then .ok s else runLoop fast fuel (runInit s)

/-- Replace the stored program, as `load_program` does (it clears only the
program store and leaves variables, arrays and memory alone). -/
def setProgram (s : InterpState) (p : List (ℕ × List Stmt)) : InterpState :=
  { s with program := p }

/-- Standard output accumulated by a run result. -/
def outputOf (r : ExecRes) : String :=
  match r with
  | .ok s => s.output
  | .error (_, s) => s.output

/-- Final state of a run result (for an error, the state at the raise). -/
def stateOf (r : ExecRes) : InterpState :=
  match r with
  | .ok s => s
  | .error (_, s) => s

/-- The uncaught-exception kind of a run result, `none` for a clean stop. -/
def crashKind (r : ExecRes) : Option RunErr :=
  match r with
  | .ok _ => none
  | .error (e, _) => some e

/-- Byte memory defaults of `_init_memory_defaults`: LOMEM 2048 at 103/104,
HIMEM 32768 at 115/116, cursor, text attribute 255 at 50, all else zero. -/
def initMemory : ℕ → ℕ := fun a =>
  if a = 103 then 0 else if a = 104 then 8
  else if a = 115 then 0 else if a = 116 then 128
  else if a = 36 then 0 else if a = 37 then 0
  else if a = 50 then 255 else if a = 241 then 0 else 0

/-- The state produced by `reset` (with `current_line`, which `reset` leaves
unset, taken as 0). -/
def initState : InterpState :=
  { program := [], vars := [], arrays := [], memory := initMemory,
    pc := 0, running := false, dataPointer := 0, pcChanged := false,
    pendingStatementIndex := none, currentPartIndex := 0,
    errorHandlerLine := none, lastError := none, forStack := [],
    gosubStack := [], currentLine := 0, graphicsMode := ("TEXT"),
    textX := 0, textY := 0, inverse := false, flash := false,
    hgrMixed := false, hgrPage := 1, output := ("") }

/-- The ONERR-trap scenario of section 8 of the specification:
`10 ONERR GOTO 100 / 20 PRINT 1slash0 / 30 END /
100 PRINT "CAUGHT ";PEEK(218)+256*PEEK(219)`. -/
def progOnerr : List (ℕ × List Stmt) :=
  [ (10, [.onerrGoto 100]),
    (20, [.print [.item (.div (.num 1) (.num 0))] false]),
    (30, [.stop]),
    (100, [.print [.item (.strLit ("CAUGHT ")), .semi,
                   .item (.add (.peek (.num 218))
                               (.mul (.num 256) (.peek (.num 219))))] false]) ]

/-- A false IF followed by a second statement part on the same line:
`10 IF 0 THEN PRINT "X": PRINT "Y" / 20 END` (the colon split of
`execute_statement` makes `PRINT "Y"` a separate part of line 10). -/
def progIfFalse : List (ℕ × List Stmt) :=
  [ (10, [.ifThen (.num 0) none [.print [.item (.strLit ("X"))] false],
          .print [.item (.strLit ("Y"))] false]),
    (20, [.stop]) ]

/-- First program of the RUN-persistence scenario: `10 A = 5`. -/
def progSetA : List (ℕ × List Stmt) :=
  [ (10, [.letVar ("A") (.num 5)]) ]

/-- Second program of the RUN-persistence scenario: `10 PRINT A`. -/
def progPrintA : List (ℕ × List Stmt) :=
  [ (10, [.print [.item (.var ("A"))] false]) ]

/-- The auto-dimension scenario of section 8 of the specification:
`10 A(3) = 7 : PRINT A(3), A(10), A(11)`. -/
def progSubscript : List (ℕ × List Stmt) :=
  [ (10, [.letArr ("A") (.num 3) (.num 7),
          .print [.item (.arrRef ("A") (.num 3)), .comma,
                  .item (.arrRef ("A") (.num 10)), .comma,
                  .item (.arrRef ("A") (.num 11))] false]) ]

/-- A FOR line with a statement after the FOR, directly followed by the NEXT
line: `10 FOR I=1 TO 3: PRINT I / 20 NEXT I`.  The fast-path trigger of
`cmd_next` (next line after the FOR line is the NEXT line) fires on it even
though the loop body is not empty. -/
def progTightLoop : List (ℕ × List Stmt) :=
  [ (10, [.forLoop ("I") (.num 1) (.num 3) none,
          .print [.item (.var ("I"))] false]),
    (20, [.next (some ("I"))]) ]

/-- The GOSUB scenario of section 8 of the specification:
`10 GOSUB 100: PRINT "B" / 20 END / 100 PRINT "A": RETURN`. -/
def progGosub : List (ℕ × List Stmt) :=
  [ (10, [.gosub (.num 100), .print [.item (.strLit ("B"))] false]),
    (20, [.stop]),
    (100, [.print [.item (.strLit ("A"))] false, .ret]) ]

/-- Invariant: every cell of the byte memory holds a value below 256. -/
def memInv (s : InterpState) : Prop := ∀ i : ℕ, s.memory i < 256

/-- A sequence of POKE operations applied in order. -/
def applyPokes (ps : List (ℤ × ℤ)) (s : InterpState) : InterpState :=
  ps.foldl (fun s2 p => cmdPoke p.1 p.2 s2) s



/-! Helper lemmas: literal computations used by the claim proofs. -/

/-- Truncation of a nonnegative integer literal is the identity. -/
theorem pyInt_natCast (n : ℕ) : pyInt (n : ℚ) = (n : ℤ) := by
  unfold pyInt
  rw [if_pos (by exact_mod_cast Nat.zero_le n), Int.floor_natCast]

/-- Truncation of a numeric literal is the identity. -/
theorem pyInt_ofNat (n : ℕ) [n.AtLeastTwo] :
    pyInt (no_index (OfNat.ofNat n)) = OfNat.ofNat n :=
  pyInt_natCast n

/-- Truncation of zero. -/
theorem pyInt_zero : pyInt 0 = 0 := by unfold pyInt; norm_num

/-- Truncation of one. -/
theorem pyInt_one : pyInt 1 = 1 := by unfold pyInt; norm_num

/-- Truncation of an integer is the identity. -/
theorem pyInt_intCast (a : ℤ) : pyInt (a : ℚ) = a := by
  unfold pyInt
  rcases le_or_lt 0 a with h | h
  · rw [if_pos (by exact_mod_cast h), Int.floor_intCast]
  · rw [if_neg (by exact_mod_cast not_le.mpr h), Int.ceil_intCast]

/-- Rational sum fact used by the loop proofs. -/
theorem qOnePlusOne : (1:ℚ) + 1 = 2 := by norm_num

/-- Rational sum fact used by the loop proofs. -/
theorem qTwoPlusOne : (2:ℚ) + 1 = 3 := by norm_num

/-- Rational sum fact used by the loop proofs. -/
theorem qThreePlusOne : (3:ℚ) + 1 = 4 := by norm_num

/-- Rational comparison fact used by the loop proofs. -/
theorem qltZeroOne : ((0:ℚ) < 1) = True := eq_true (by norm_num)

/-- Rational comparison fact used by the loop proofs. -/
theorem qltThreeTwo : ((3:ℚ) < 2) = False := eq_false (by norm_num)

/-- Rational comparison fact used by the loop proofs. -/
theorem qltTwoThree : ((2:ℚ) < 3) = True := eq_true (by norm_num)

/-- Rational comparison fact used by the loop proofs. -/
theorem qltThreeThree : ((3:ℚ) < 3) = False := eq_false (by norm_num)

/-- Rational comparison fact used by the loop proofs. -/
theorem qltThreeFour : ((3:ℚ) < 4) = True := eq_true (by norm_num)

/-- C1: code_bug evaluation.  In the ONERR-trap scenario of section 8 the
interpreter transfers control to the handler line, but `PEEK(218)` and
`PEEK(219)` read `self.current_line`, which the run loop has already set to
the handler line (100) by the time the handler executes, not to the line
where the error occurred (20): the program prints `CAUGHT  100 `, while the
claim and the specification require `CAUGHT  20 `. -/
theorem c1_onerr_latch_reports_handler_line :
    outputOf (runProgramFrom true 15 (setProgram initState progOnerr)) =
      ("CAUGHT  100 \n") := by
  simp only [progOnerr, runProgramFrom, runInit, setProgram, initState, List.isEmpty,
    List.head?, reduceIte, Nat.reduceBEq, Nat.reduceAdd, Bool.false_eq_true]
  rw [show runLoop true (15:ℕ) = runLoop true (Nat.succ 14) from rfl, runLoop.eq_2]
  simp only [findCurrentLine, lookupLine, List.lookup, Nat.reduceBEq, getNextLine, findLineGE,
    List.head?, List.drop, Option.isSome_some, Option.isSome_none, Option.getD_some,
    Option.getD_none, Option.isNone_some, Option.isNone_none,
    Option.map_some', Option.map_none', execParts, execStmt, cmdPrint, printItemsLoop,
    cmdFor, cmdForInit, cmdNext, fastCountdown, cmdLetVar, cmdLetArr, cmdGoto, cmdGotoNat,
    cmdGosub, cmdReturn, pyListSet, pyListGet, autoArr,
    lookupArr, setArr, List.replicate, List.set, List.get?, List.length,
    evalExpr, asInt, asQ, peekCore, normAddr, pyInt_ofNat, pyInt_zero, pyInt_one,
    qOnePlusOne, qTwoPlusOne, qThreePlusOne,
    qltZeroOne, qltThreeTwo, qltTwoThree, qltThreeThree, qltThreeFour,
    lookupVar, setVar, setAssoc, truthy, bne_self_eq_false, crashKind, outputOf, stateOf,
    reduceIte, Nat.reduceAdd, Nat.reduceLeDiff, Bool.false_eq_true, List.isEmpty,
    and_self, and_true, true_and, if_true, if_false, Int.reduceMod,
    Int.reduceToNat, Int.reduceLT, Nat.cast_ofNat, Nat.cast_zero, Nat.reduceMod,
    Nat.reduceDiv, mul_zero, add_zero, Nat.reduceEqDiff, or_false, false_or, or_self,
    and_false, false_and, Int.reduceLE, Int.reduceAdd, Int.reduceNeg, Int.reduceSub,
    Nat.reduceLT, Nat.reduceSub, Nat.cast_one,
    List.nil_append, List.cons_append, List.append_nil, String.reduceBEq, String.reduceEq,
    ne_eq, not_false_iff, not_true, eq_self_iff_true]
  rw [show runLoop true (14:ℕ) = runLoop true (Nat.succ 13) from rfl, runLoop.eq_2]
  simp only [findCurrentLine, lookupLine, List.lookup, Nat.reduceBEq, getNextLine, findLineGE,
    List.head?, List.drop, Option.isSome_some, Option.isSome_none, Option.getD_some,
    Option.getD_none, Option.isNone_some, Option.isNone_none,
    Option.map_some', Option.map_none', execParts, execStmt, cmdPrint, printItemsLoop,
    cmdFor, cmdForInit, cmdNext, fastCountdown, cmdLetVar, cmdLetArr, cmdGoto, cmdGotoNat,
    cmdGosub, cmdReturn, pyListSet, pyListGet, autoArr,
    lookupArr, setArr, List.replicate, List.set, List.get?, List.length,
    evalExpr, asInt, asQ, peekCore, normAddr, pyInt_ofNat, pyInt_zero, pyInt_one,
    qOnePlusOne, qTwoPlusOne, qThreePlusOne,
    qltZeroOne, qltThreeTwo, qltTwoThree, qltThreeThree, qltThreeFour,
    lookupVar, setVar, setAssoc, truthy, bne_self_eq_false, crashKind, outputOf, stateOf,
    reduceIte, Nat.reduceAdd, Nat.reduceLeDiff, Bool.false_eq_true, List.isEmpty,
    and_self, and_true, true_and, if_true, if_false, Int.reduceMod,
    Int.reduceToNat, Int.reduceLT, Nat.cast_ofNat, Nat.cast_zero, Nat.reduceMod,
    Nat.reduceDiv, mul_zero, add_zero, Nat.reduceEqDiff, or_false, false_or, or_self,
    and_false, false_and, Int.reduceLE, Int.reduceAdd, Int.reduceNeg, Int.reduceSub,
    Nat.reduceLT, Nat.reduceSub, Nat.cast_one,
    List.nil_append, List.cons_append, List.append_nil, String.reduceBEq, String.reduceEq,
    ne_eq, not_false_iff, not_true, eq_self_iff_true]
  rw [show runLoop true (13:ℕ) = runLoop true (Nat.succ 12) from rfl, runLoop.eq_2]
  simp only [findCurrentLine, lookupLine, List.lookup, Nat.reduceBEq, getNextLine, findLineGE,
    List.head?, List.drop, Option.isSome_some, Option.isSome_none, Option.getD_some,
    Option.getD_none, Option.isNone_some, Option.isNone_none,
    Option.map_some', Option.map_none', execParts, execStmt, cmdPrint, printItemsLoop,
    cmdFor, cmdForInit, cmdNext, fastCountdown, cmdLetVar, cmdLetArr, cmdGoto, cmdGotoNat,
    cmdGosub, cmdReturn, pyListSet, pyListGet, autoArr,
    lookupArr, setArr, List.replicate, List.set, List.get?, List.length,
    evalExpr, asInt, asQ, peekCore, normAddr, pyInt_ofNat, pyInt_zero, pyInt_one,
    qOnePlusOne, qTwoPlusOne, qThreePlusOne,
    qltZeroOne, qltThreeTwo, qltTwoThree, qltThreeThree, qltThreeFour,
    lookupVar, setVar, setAssoc, truthy, bne_self_eq_false, crashKind, outputOf, stateOf,
    reduceIte, Nat.reduceAdd, Nat.reduceLeDiff, Bool.false_eq_true, List.isEmpty,
    and_self, and_true, true_and, if_true, if_false, Int.reduceMod,
    Int.reduceToNat, Int.reduceLT, Nat.cast_ofNat, Nat.cast_zero, Nat.reduceMod,
    Nat.reduceDiv, mul_zero, add_zero, Nat.reduceEqDiff, or_false, false_or, or_self,
    and_false, false_and, Int.reduceLE, Int.reduceAdd, Int.reduceNeg, Int.reduceSub,
    Nat.reduceLT, Nat.reduceSub, Nat.cast_one,
    List.nil_append, List.cons_append, List.append_nil, String.reduceBEq, String.reduceEq,
    ne_eq, not_false_iff, not_true, eq_self_iff_true]
  decide

/-- C2: code_bug evaluation.  With a false condition, `cmd_if` merely returns;
`execute_statement` then continues with the next colon-separated part of the
same line, so `10 IF 0 THEN PRINT "X": PRINT "Y"` prints `Y`, while the claim
and the specification require execution to advance to the next line and print
nothing. -/
theorem c2_if_false_still_runs_rest_of_line :
    outputOf (runProgramFrom true 10 (setProgram initState progIfFalse)) = ("Y\n") := by
  simp only [progIfFalse, runProgramFrom, runInit, setProgram, initState, List.isEmpty,
    List.head?, reduceIte, Nat.reduceBEq, Nat.reduceAdd, Bool.false_eq_true]
  rw [show runLoop true (10:ℕ) = runLoop true (Nat.succ 9) from rfl, runLoop.eq_2]
  simp only [findCurrentLine, lookupLine, List.lookup, Nat.reduceBEq, getNextLine, findLineGE,
    List.head?, List.drop, Option.isSome_some, Option.isSome_none, Option.getD_some,
    Option.getD_none, Option.isNone_some, Option.isNone_none,
    Option.map_some', Option.map_none', execParts, execStmt, cmdPrint, printItemsLoop,
    cmdFor, cmdForInit, cmdNext, fastCountdown, cmdLetVar, cmdLetArr, cmdGoto, cmdGotoNat,
    cmdGosub, cmdReturn, pyListSet, pyListGet, autoArr,
    lookupArr, setArr, List.replicate, List.set, List.get?, List.length,
    evalExpr, asInt, asQ, peekCore, normAddr, pyInt_ofNat, pyInt_zero, pyInt_one,
    qOnePlusOne, qTwoPlusOne, qThreePlusOne,
    qltZeroOne, qltThreeTwo, qltTwoThree, qltThreeThree, qltThreeFour,
    lookupVar, setVar, setAssoc, truthy, bne_self_eq_false, crashKind, outputOf, stateOf,
    reduceIte, Nat.reduceAdd, Nat.reduceLeDiff, Bool.false_eq_true, List.isEmpty,
    and_self, and_true, true_and, if_true, if_false, Int.reduceMod,
    Int.reduceToNat, Int.reduceLT, Nat.cast_ofNat, Nat.cast_zero, Nat.reduceMod,
    Nat.reduceDiv, mul_zero, add_zero, Nat.reduceEqDiff, or_false, false_or, or_self,
    and_false, false_and, Int.reduceLE, Int.reduceAdd, Int.reduceNeg, Int.reduceSub,
    Nat.reduceLT, Nat.reduceSub, Nat.cast_one,
    List.nil_append, List.cons_append, List.append_nil, String.reduceBEq, String.reduceEq,
    ne_eq, not_false_iff, not_true, eq_self_iff_true]
  rw [show runLoop true (9:ℕ) = runLoop true (Nat.succ 8) from rfl, runLoop.eq_2]
  simp only [findCurrentLine, lookupLine, List.lookup, Nat.reduceBEq, getNextLine, findLineGE,
    List.head?, List.drop, Option.isSome_some, Option.isSome_none, Option.getD_some,
    Option.getD_none, Option.isNone_some, Option.isNone_none,
    Option.map_some', Option.map_none', execParts, execStmt, cmdPrint, printItemsLoop,
    cmdFor, cmdForInit, cmdNext, fastCountdown, cmdLetVar, cmdLetArr, cmdGoto, cmdGotoNat,
    cmdGosub, cmdReturn, pyListSet, pyListGet, autoArr,
    lookupArr, setArr, List.replicate, List.set, List.get?, List.length,
    evalExpr, asInt, asQ, peekCore, normAddr, pyInt_ofNat, pyInt_zero, pyInt_one,
    qOnePlusOne, qTwoPlusOne, qThreePlusOne,
    qltZeroOne, qltThreeTwo, qltTwoThree, qltThreeThree, qltThreeFour,
    lookupVar, setVar, setAssoc, truthy, bne_self_eq_false, crashKind, outputOf, stateOf,
    reduceIte, Nat.reduceAdd, Nat.reduceLeDiff, Bool.false_eq_true, List.isEmpty,
    and_self, and_true, true_and, if_true, if_false, Int.reduceMod,
    Int.reduceToNat, Int.reduceLT, Nat.cast_ofNat, Nat.cast_zero, Nat.reduceMod,
    Nat.reduceDiv, mul_zero, add_zero, Nat.reduceEqDiff, or_false, false_or, or_self,
    and_false, false_and, Int.reduceLE, Int.reduceAdd, Int.reduceNeg, Int.reduceSub,
    Nat.reduceLT, Nat.reduceSub, Nat.cast_one,
    List.nil_append, List.cons_append, List.append_nil, String.reduceBEq, String.reduceEq,
    ne_eq, not_false_iff, not_true, eq_self_iff_true]
  decide

/-- C3: code_bug evaluation.  `run` clears the FOR and GOSUB stacks and resets
the DATA pointer but does not touch the scalar or array stores, so a value
assigned in one run is observable in the next: after running `10 A = 5`,
running `10 PRINT A` prints ` 5 ` rather than the ` 0 ` the claim requires. -/
theorem c3_run_preserves_vars_and_arrays :
    (∀ s : InterpState, (runInit s).vars = s.vars ∧ (runInit s).arrays = s.arrays) ∧
    outputOf (runProgramFrom true 10 (setProgram
      (stateOf (runProgramFrom true 10 (setProgram initState progSetA)))
      progPrintA)) = (" 5 \n") := by
  constructor
  · intro s; exact ⟨rfl, rfl⟩
  · have hA : runProgramFrom true 10 (setProgram initState progSetA) =
        .ok { initState with program := progSetA, vars := [(("A"), Value.num 5)], pc := 10, currentLine := 10 } := by
      simp only [progSetA, runProgramFrom, runInit, setProgram, initState, List.isEmpty,
        List.head?, reduceIte, Nat.reduceBEq, Nat.reduceAdd, Bool.false_eq_true]
      rw [show runLoop true (10:ℕ) = runLoop true (Nat.succ 9) from rfl, runLoop.eq_2]
      simp only [findCurrentLine, lookupLine, List.lookup, Nat.reduceBEq, getNextLine, findLineGE,
        List.head?, List.drop, Option.isSome_some, Option.isSome_none, Option.getD_some,
        Option.getD_none, Option.isNone_some, Option.isNone_none,
        Option.map_some', Option.map_none', execParts, execStmt, cmdPrint, printItemsLoop,
        cmdFor, cmdForInit, cmdNext, fastCountdown, cmdLetVar, cmdLetArr, cmdGoto, cmdGotoNat,
        cmdGosub, cmdReturn, pyListSet, pyListGet, autoArr,
        lookupArr, setArr, List.replicate, List.set, List.get?, List.length,
        evalExpr, asInt, asQ, peekCore, normAddr, pyInt_ofNat, pyInt_zero, pyInt_one,
        qOnePlusOne, qTwoPlusOne, qThreePlusOne,
        qltZeroOne, qltThreeTwo, qltTwoThree, qltThreeThree, qltThreeFour,
        lookupVar, setVar, setAssoc, truthy, bne_self_eq_false, crashKind, outputOf, stateOf,
        reduceIte, Nat.reduceAdd, Nat.reduceLeDiff, Bool.false_eq_true, List.isEmpty,
        and_self, and_true, true_and, if_true, if_false, Int.reduceMod,
        Int.reduceToNat, Int.reduceLT, Nat.cast_ofNat, Nat.cast_zero, Nat.reduceMod,
        Nat.reduceDiv, mul_zero, add_zero, Nat.reduceEqDiff, or_false, false_or, or_self,
        and_false, false_and, Int.reduceLE, Int.reduceAdd, Int.reduceNeg, Int.reduceSub,
        Nat.reduceLT, Nat.reduceSub, Nat.cast_one,
        List.nil_append, List.cons_append, List.append_nil, String.reduceBEq, String.reduceEq,
        ne_eq, not_false_iff, not_true, eq_self_iff_true]
    rw [hA]
    simp only [stateOf]
    simp only [progPrintA, runProgramFrom, runInit, setProgram, initState, List.isEmpty,
      List.head?, reduceIte, Nat.reduceBEq, Nat.reduceAdd, Bool.false_eq_true]
    rw [show runLoop true (10:ℕ) = runLoop true (Nat.succ 9) from rfl, runLoop.eq_2]
    simp only [findCurrentLine, lookupLine, List.lookup, Nat.reduceBEq, getNextLine, findLineGE,
      List.head?, List.drop, Option.isSome_some, Option.isSome_none, Option.getD_some,
      Option.getD_none, Option.isNone_some, Option.isNone_none,
      Option.map_some', Option.map_none', execParts, execStmt, cmdPrint, printItemsLoop,
      cmdFor, cmdForInit, cmdNext, fastCountdown, cmdLetVar, cmdLetArr, cmdGoto, cmdGotoNat,
      cmdGosub, cmdReturn, pyListSet, pyListGet, autoArr,
      lookupArr, setArr, List.replicate, List.set, List.get?, List.length,
      evalExpr, asInt, asQ, peekCore, normAddr, pyInt_ofNat, pyInt_zero, pyInt_one,
      qOnePlusOne, qTwoPlusOne, qThreePlusOne,
      qltZeroOne, qltThreeTwo, qltTwoThree, qltThreeThree, qltThreeFour,
      lookupVar, setVar, setAssoc, truthy, bne_self_eq_false, crashKind, outputOf, stateOf,
      reduceIte, Nat.reduceAdd, Nat.reduceLeDiff, Bool.false_eq_true, List.isEmpty,
      and_self, and_true, true_and, if_true, if_false, Int.reduceMod,
      Int.reduceToNat, Int.reduceLT, Nat.cast_ofNat, Nat.cast_zero, Nat.reduceMod,
      Nat.reduceDiv, mul_zero, add_zero, Nat.reduceEqDiff, or_false, false_or, or_self,
      and_false, false_and, Int.reduceLE, Int.reduceAdd, Int.reduceNeg, Int.reduceSub,
      Nat.reduceLT, Nat.reduceSub, Nat.cast_one,
      List.nil_append, List.cons_append, List.append_nil, String.reduceBEq, String.reduceEq,
      ne_eq, not_false_iff, not_true, eq_self_iff_true]
    decide

/-- C4: code_bug evaluation.  `INT` is implemented as `float(int(x))`, and
Python `int` truncates toward zero: `INT(-1.5)` evaluates to -1, not the -2
required by the claim and the specification (which demand flooring); for
nonnegative arguments truncation and flooring agree, so `INT(1.5) = 1`. -/
theorem c4_int_truncates_toward_zero :
    evalNum initState (.intF (.num (-(3:ℚ)/2))) = some (-1) ∧
    evalNum initState (.intF (.num ((3:ℚ)/2))) = some 1 := by
  have hfl : ⌊(3:ℚ)/2⌋ = 1 := by
    rw [Int.floor_eq_iff]
    constructor <;> norm_num
  have hneg : pyInt (-(3:ℚ)/2) = -1 := by
    unfold pyInt
    rw [if_neg (by norm_num), show (-(3:ℚ)/2) = -((3:ℚ)/2) from by ring, Int.ceil_neg, hfl]
  have hpos : pyInt ((3:ℚ)/2) = 1 := by
    unfold pyInt
    rw [if_pos (by norm_num), hfl]
  constructor
  · simp only [evalNum, evalExpr, asInt, hneg]
    norm_num
  · simp only [evalNum, evalExpr, asInt, hpos]
    norm_num

/-- C5: code_bug evaluation.  The interpreter has no Bad Subscript error: an
out-of-range subscript reaches the Python list subscript, which raises an
untyped `IndexError` that the run loop (catching only `ApplesoftError`) does
not handle, crashing the interpreter; nothing is printed, because `cmd_print`
evaluates the whole item list before writing.  In-range subscripts of an
auto-dimensioned array (bound 10) never produce that error and read 0. -/
theorem c5_bad_subscript_is_python_index_error :
    crashKind (runProgramFrom true 10 (setProgram initState progSubscript)) =
      some (.pyExc ("IndexError")) ∧
    outputOf (runProgramFrom true 10 (setProgram initState progSubscript)) = ("") ∧
    ((List.range 11).all fun i =>
      evalNum initState (.arrRef ("A") (.num (i : ℚ))) == some 0) = true := by
  refine ⟨?_, ?_, by decide⟩
  ·
    simp only [progSubscript, runProgramFrom, runInit, setProgram, initState, List.isEmpty,
      List.head?, reduceIte, Nat.reduceBEq, Nat.reduceAdd, Bool.false_eq_true]
    rw [show runLoop true (10:ℕ) = runLoop true (Nat.succ 9) from rfl, runLoop.eq_2]
    simp only [findCurrentLine, lookupLine, List.lookup, Nat.reduceBEq, getNextLine, findLineGE,
      List.head?, List.drop, Option.isSome_some, Option.isSome_none, Option.getD_some,
      Option.getD_none, Option.isNone_some, Option.isNone_none,
      Option.map_some', Option.map_none', execParts, execStmt, cmdPrint, printItemsLoop,
      cmdFor, cmdForInit, cmdNext, fastCountdown, cmdLetVar, cmdLetArr, cmdGoto, cmdGotoNat,
      cmdGosub, cmdReturn, pyListSet, pyListGet, autoArr,
      lookupArr, setArr, List.replicate, List.set, List.get?, List.length,
      evalExpr, asInt, asQ, peekCore, normAddr, pyInt_ofNat, pyInt_zero, pyInt_one,
      qOnePlusOne, qTwoPlusOne, qThreePlusOne,
      qltZeroOne, qltThreeTwo, qltTwoThree, qltThreeThree, qltThreeFour,
      lookupVar, setVar, setAssoc, truthy, bne_self_eq_false, crashKind, outputOf, stateOf,
      reduceIte, Nat.reduceAdd, Nat.reduceLeDiff, Bool.false_eq_true, List.isEmpty,
      and_self, and_true, true_and, if_true, if_false, Int.reduceMod,
      Int.reduceToNat, Int.reduceLT, Nat.cast_ofNat, Nat.cast_zero, Nat.reduceMod,
      Nat.reduceDiv, mul_zero, add_zero, Nat.reduceEqDiff, or_false, false_or, or_self,
      and_false, false_and, Int.reduceLE, Int.reduceAdd, Int.reduceNeg, Int.reduceSub,
      Nat.reduceLT, Nat.reduceSub, Nat.cast_one,
      List.nil_append, List.cons_append, List.append_nil, String.reduceBEq, String.reduceEq,
      ne_eq, not_false_iff, not_true, eq_self_iff_true]

  ·
    simp only [progSubscript, runProgramFrom, runInit, setProgram, initState, List.isEmpty,
      List.head?, reduceIte, Nat.reduceBEq, Nat.reduceAdd, Bool.false_eq_true]
    rw [show runLoop true (10:ℕ) = runLoop true (Nat.succ 9) from rfl, runLoop.eq_2]
    simp only [findCurrentLine, lookupLine, List.lookup, Nat.reduceBEq, getNextLine, findLineGE,
      List.head?, List.drop, Option.isSome_some, Option.isSome_none, Option.getD_some,
      Option.getD_none, Option.isNone_some, Option.isNone_none,
      Option.map_some', Option.map_none', execParts, execStmt, cmdPrint, printItemsLoop,
      cmdFor, cmdForInit, cmdNext, fastCountdown, cmdLetVar, cmdLetArr, cmdGoto, cmdGotoNat,
      cmdGosub, cmdReturn, pyListSet, pyListGet, autoArr,
      lookupArr, setArr, List.replicate, List.set, List.get?, List.length,
      evalExpr, asInt, asQ, peekCore, normAddr, pyInt_ofNat, pyInt_zero, pyInt_one,
      qOnePlusOne, qTwoPlusOne, qThreePlusOne,
      qltZeroOne, qltThreeTwo, qltTwoThree, qltThreeThree, qltThreeFour,
      lookupVar, setVar, setAssoc, truthy, bne_self_eq_false, crashKind, outputOf, stateOf,
      reduceIte, Nat.reduceAdd, Nat.reduceLeDiff, Bool.false_eq_true, List.isEmpty,
      and_self, and_true, true_and, if_true, if_false, Int.reduceMod,
      Int.reduceToNat, Int.reduceLT, Nat.cast_ofNat, Nat.cast_zero, Nat.reduceMod,
      Nat.reduceDiv, mul_zero, add_zero, Nat.reduceEqDiff, or_false, false_or, or_self,
      and_false, false_and, Int.reduceLE, Int.reduceAdd, Int.reduceNeg, Int.reduceSub,
      Nat.reduceLT, Nat.reduceSub, Nat.cast_one,
      List.nil_append, List.cons_append, List.append_nil, String.reduceBEq, String.reduceEq,
      ne_eq, not_false_iff, not_true, eq_self_iff_true]


/-- C6: code_bug evaluation.  The fast-path trigger of `cmd_next` checks only
that the line after the FOR line is the line of the NEXT, not that the FOR is
the sole statement of its line, so on `10 FOR I=1 TO 3: PRINT I / 20 NEXT I`
it fires and counts the loop down without executing the `PRINT I` part of
line 10 again: the run prints ` 1 ` only, while forcing the single-stepping
path of the same function (the specification reference) prints
` 1 `, ` 2 `, ` 3 `.  The optimization is therefore not transparent. -/
theorem c6_fastpath_not_equivalent_to_single_stepping :
    outputOf (runProgramFrom true 12 (setProgram initState progTightLoop)) = (" 1 \n") ∧
    outputOf (runProgramFrom false 24 (setProgram initState progTightLoop)) =
      (" 1 \n 2 \n 3 \n") := by
  constructor
  ·
    simp only [progTightLoop, runProgramFrom, runInit, setProgram, initState, List.isEmpty,
      List.head?, reduceIte, Nat.reduceBEq, Nat.reduceAdd, Bool.false_eq_true]
    rw [show runLoop true (12:ℕ) = runLoop true (Nat.succ 11) from rfl, runLoop.eq_2]
    simp only [findCurrentLine, lookupLine, List.lookup, Nat.reduceBEq, getNextLine, findLineGE,
      List.head?, List.drop, Option.isSome_some, Option.isSome_none, Option.getD_some,
      Option.getD_none, Option.isNone_some, Option.isNone_none,
      Option.map_some', Option.map_none', execParts, execStmt, cmdPrint, printItemsLoop,
      cmdFor, cmdForInit, cmdNext, fastCountdown, cmdLetVar, cmdLetArr, cmdGoto, cmdGotoNat,
      cmdGosub, cmdReturn, pyListSet, pyListGet, autoArr,
      lookupArr, setArr, List.replicate, List.set, List.get?, List.length,
      evalExpr, asInt, asQ, peekCore, normAddr, pyInt_ofNat, pyInt_zero, pyInt_one,
      qOnePlusOne, qTwoPlusOne, qThreePlusOne,
      qltZeroOne, qltThreeTwo, qltTwoThree, qltThreeThree, qltThreeFour,
      lookupVar, setVar, setAssoc, truthy, bne_self_eq_false, crashKind, outputOf, stateOf,
      reduceIte, Nat.reduceAdd, Nat.reduceLeDiff, Bool.false_eq_true, List.isEmpty,
      and_self, and_true, true_and, if_true, if_false, Int.reduceMod,
      Int.reduceToNat, Int.reduceLT, Nat.cast_ofNat, Nat.cast_zero, Nat.reduceMod,
      Nat.reduceDiv, mul_zero, add_zero, Nat.reduceEqDiff, or_false, false_or, or_self,
      and_false, false_and, Int.reduceLE, Int.reduceAdd, Int.reduceNeg, Int.reduceSub,
      Nat.reduceLT, Nat.reduceSub, Nat.cast_one,
      List.nil_append, List.cons_append, List.append_nil, String.reduceBEq, String.reduceEq,
      ne_eq, not_false_iff, not_true, eq_self_iff_true]
    rw [show runLoop true (11:ℕ) = runLoop true (Nat.succ 10) from rfl, runLoop.eq_2]
    simp only [findCurrentLine, lookupLine, List.lookup, Nat.reduceBEq, getNextLine, findLineGE,
      List.head?, List.drop, Option.isSome_some, Option.isSome_none, Option.getD_some,
      Option.getD_none, Option.isNone_some, Option.isNone_none,
      Option.map_some', Option.map_none', execParts, execStmt, cmdPrint, printItemsLoop,
      cmdFor, cmdForInit, cmdNext, fastCountdown, cmdLetVar, cmdLetArr, cmdGoto, cmdGotoNat,
      cmdGosub, cmdReturn, pyListSet, pyListGet, autoArr,
      lookupArr, setArr, List.replicate, List.set, List.get?, List.length,
      evalExpr, asInt, asQ, peekCore, normAddr, pyInt_ofNat, pyInt_zero, pyInt_one,
      qOnePlusOne, qTwoPlusOne, qThreePlusOne,
      qltZeroOne, qltThreeTwo, qltTwoThree, qltThreeThree, qltThreeFour,
      lookupVar, setVar, setAssoc, truthy, bne_self_eq_false, crashKind, outputOf, stateOf,
      reduceIte, Nat.reduceAdd, Nat.reduceLeDiff, Bool.false_eq_true, List.isEmpty,
      and_self, and_true, true_and, if_true, if_false, Int.reduceMod,
      Int.reduceToNat, Int.reduceLT, Nat.cast_ofNat, Nat.cast_zero, Nat.reduceMod,
      Nat.reduceDiv, mul_zero, add_zero, Nat.reduceEqDiff, or_false, false_or, or_self,
      and_false, false_and, Int.reduceLE, Int.reduceAdd, Int.reduceNeg, Int.reduceSub,
      Nat.reduceLT, Nat.reduceSub, Nat.cast_one,
      List.nil_append, List.cons_append, List.append_nil, String.reduceBEq, String.reduceEq,
      ne_eq, not_false_iff, not_true, eq_self_iff_true]
    decide
  ·
    simp only [progTightLoop, runProgramFrom, runInit, setProgram, initState, List.isEmpty,
      List.head?, reduceIte, Nat.reduceBEq, Nat.reduceAdd, Bool.false_eq_true]
    rw [show runLoop false (24:ℕ) = runLoop false (Nat.succ 23) from rfl, runLoop.eq_2]
    simp only [findCurrentLine, lookupLine, List.lookup, Nat.reduceBEq, getNextLine, findLineGE,
      List.head?, List.drop, Option.isSome_some, Option.isSome_none, Option.getD_some,
      Option.getD_none, Option.isNone_some, Option.isNone_none,
      Option.map_some', Option.map_none', execParts, execStmt, cmdPrint, printItemsLoop,
      cmdFor, cmdForInit, cmdNext, fastCountdown, cmdLetVar, cmdLetArr, cmdGoto, cmdGotoNat,
      cmdGosub, cmdReturn, pyListSet, pyListGet, autoArr,
      lookupArr, setArr, List.replicate, List.set, List.get?, List.length,
      evalExpr, asInt, asQ, peekCore, normAddr, pyInt_ofNat, pyInt_zero, pyInt_one,
      qOnePlusOne, qTwoPlusOne, qThreePlusOne,
      qltZeroOne, qltThreeTwo, qltTwoThree, qltThreeThree, qltThreeFour,
      lookupVar, setVar, setAssoc, truthy, bne_self_eq_false, crashKind, outputOf, stateOf,
      reduceIte, Nat.reduceAdd, Nat.reduceLeDiff, Bool.false_eq_true, List.isEmpty,
      and_self, and_true, true_and, if_true, if_false, Int.reduceMod,
      Int.reduceToNat, Int.reduceLT, Nat.cast_ofNat, Nat.cast_zero, Nat.reduceMod,
      Nat.reduceDiv, mul_zero, add_zero, Nat.reduceEqDiff, or_false, false_or, or_self,
      and_false, false_and, Int.reduceLE, Int.reduceAdd, Int.reduceNeg, Int.reduceSub,
      Nat.reduceLT, Nat.reduceSub, Nat.cast_one,
      List.nil_append, List.cons_append, List.append_nil, String.reduceBEq, String.reduceEq,
      ne_eq, not_false_iff, not_true, eq_self_iff_true]
    rw [show runLoop false (23:ℕ) = runLoop false (Nat.succ 22) from rfl, runLoop.eq_2]
    simp only [findCurrentLine, lookupLine, List.lookup, Nat.reduceBEq, getNextLine, findLineGE,
      List.head?, List.drop, Option.isSome_some, Option.isSome_none, Option.getD_some,
      Option.getD_none, Option.isNone_some, Option.isNone_none,
      Option.map_some', Option.map_none', execParts, execStmt, cmdPrint, printItemsLoop,
      cmdFor, cmdForInit, cmdNext, fastCountdown, cmdLetVar, cmdLetArr, cmdGoto, cmdGotoNat,
      cmdGosub, cmdReturn, pyListSet, pyListGet, autoArr,
      lookupArr, setArr, List.replicate, List.set, List.get?, List.length,
      evalExpr, asInt, asQ, peekCore, normAddr, pyInt_ofNat, pyInt_zero, pyInt_one,
      qOnePlusOne, qTwoPlusOne, qThreePlusOne,
      qltZeroOne, qltThreeTwo, qltTwoThree, qltThreeThree, qltThreeFour,
      lookupVar, setVar, setAssoc, truthy, bne_self_eq_false, crashKind, outputOf, stateOf,
      reduceIte, Nat.reduceAdd, Nat.reduceLeDiff, Bool.false_eq_true, List.isEmpty,
      and_self, and_true, true_and, if_true, if_false, Int.reduceMod,
      Int.reduceToNat, Int.reduceLT, Nat.cast_ofNat, Nat.cast_zero, Nat.reduceMod,
      Nat.reduceDiv, mul_zero, add_zero, Nat.reduceEqDiff, or_false, false_or, or_self,
      and_false, false_and, Int.reduceLE, Int.reduceAdd, Int.reduceNeg, Int.reduceSub,
      Nat.reduceLT, Nat.reduceSub, Nat.cast_one,
      List.nil_append, List.cons_append, List.append_nil, String.reduceBEq, String.reduceEq,
      ne_eq, not_false_iff, not_true, eq_self_iff_true]
    rw [show runLoop false (22:ℕ) = runLoop false (Nat.succ 21) from rfl, runLoop.eq_2]
    simp only [findCurrentLine, lookupLine, List.lookup, Nat.reduceBEq, getNextLine, findLineGE,
      List.head?, List.drop, Option.isSome_some, Option.isSome_none, Option.getD_some,
      Option.getD_none, Option.isNone_some, Option.isNone_none,
      Option.map_some', Option.map_none', execParts, execStmt, cmdPrint, printItemsLoop,
      cmdFor, cmdForInit, cmdNext, fastCountdown, cmdLetVar, cmdLetArr, cmdGoto, cmdGotoNat,
      cmdGosub, cmdReturn, pyListSet, pyListGet, autoArr,
      lookupArr, setArr, List.replicate, List.set, List.get?, List.length,
      evalExpr, asInt, asQ, peekCore, normAddr, pyInt_ofNat, pyInt_zero, pyInt_one,
      qOnePlusOne, qTwoPlusOne, qThreePlusOne,
      qltZeroOne, qltThreeTwo, qltTwoThree, qltThreeThree, qltThreeFour,
      lookupVar, setVar, setAssoc, truthy, bne_self_eq_false, crashKind, outputOf, stateOf,
      reduceIte, Nat.reduceAdd, Nat.reduceLeDiff, Bool.false_eq_true, List.isEmpty,
      and_self, and_true, true_and, if_true, if_false, Int.reduceMod,
      Int.reduceToNat, Int.reduceLT, Nat.cast_ofNat, Nat.cast_zero, Nat.reduceMod,
      Nat.reduceDiv, mul_zero, add_zero, Nat.reduceEqDiff, or_false, false_or, or_self,
      and_false, false_and, Int.reduceLE, Int.reduceAdd, Int.reduceNeg, Int.reduceSub,
      Nat.reduceLT, Nat.reduceSub, Nat.cast_one,
      List.nil_append, List.cons_append, List.append_nil, String.reduceBEq, String.reduceEq,
      ne_eq, not_false_iff, not_true, eq_self_iff_true]
    rw [show runLoop false (21:ℕ) = runLoop false (Nat.succ 20) from rfl, runLoop.eq_2]
    simp only [findCurrentLine, lookupLine, List.lookup, Nat.reduceBEq, getNextLine, findLineGE,
      List.head?, List.drop, Option.isSome_some, Option.isSome_none, Option.getD_some,
      Option.getD_none, Option.isNone_some, Option.isNone_none,
      Option.map_some', Option.map_none', execParts, execStmt, cmdPrint, printItemsLoop,
      cmdFor, cmdForInit, cmdNext, fastCountdown, cmdLetVar, cmdLetArr, cmdGoto, cmdGotoNat,
      cmdGosub, cmdReturn, pyListSet, pyListGet, autoArr,
      lookupArr, setArr, List.replicate, List.set, List.get?, List.length,
      evalExpr, asInt, asQ, peekCore, normAddr, pyInt_ofNat, pyInt_zero, pyInt_one,
      qOnePlusOne, qTwoPlusOne, qThreePlusOne,
      qltZeroOne, qltThreeTwo, qltTwoThree, qltThreeThree, qltThreeFour,
      lookupVar, setVar, setAssoc, truthy, bne_self_eq_false, crashKind, outputOf, stateOf,
      reduceIte, Nat.reduceAdd, Nat.reduceLeDiff, Bool.false_eq_true, List.isEmpty,
      and_self, and_true, true_and, if_true, if_false, Int.reduceMod,
      Int.reduceToNat, Int.reduceLT, Nat.cast_ofNat, Nat.cast_zero, Nat.reduceMod,
      Nat.reduceDiv, mul_zero, add_zero, Nat.reduceEqDiff, or_false, false_or, or_self,
      and_false, false_and, Int.reduceLE, Int.reduceAdd, Int.reduceNeg, Int.reduceSub,
      Nat.reduceLT, Nat.reduceSub, Nat.cast_one,
      List.nil_append, List.cons_append, List.append_nil, String.reduceBEq, String.reduceEq,
      ne_eq, not_false_iff, not_true, eq_self_iff_true]
    rw [show runLoop false (20:ℕ) = runLoop false (Nat.succ 19) from rfl, runLoop.eq_2]
    simp only [findCurrentLine, lookupLine, List.lookup, Nat.reduceBEq, getNextLine, findLineGE,
      List.head?, List.drop, Option.isSome_some, Option.isSome_none, Option.getD_some,
      Option.getD_none, Option.isNone_some, Option.isNone_none,
      Option.map_some', Option.map_none', execParts, execStmt, cmdPrint, printItemsLoop,
      cmdFor, cmdForInit, cmdNext, fastCountdown, cmdLetVar, cmdLetArr, cmdGoto, cmdGotoNat,
      cmdGosub, cmdReturn, pyListSet, pyListGet, autoArr,
      lookupArr, setArr, List.replicate, List.set, List.get?, List.length,
      evalExpr, asInt, asQ, peekCore, normAddr, pyInt_ofNat, pyInt_zero, pyInt_one,
      qOnePlusOne, qTwoPlusOne, qThreePlusOne,
      qltZeroOne, qltThreeTwo, qltTwoThree, qltThreeThree, qltThreeFour,
      lookupVar, setVar, setAssoc, truthy, bne_self_eq_false, crashKind, outputOf, stateOf,
      reduceIte, Nat.reduceAdd, Nat.reduceLeDiff, Bool.false_eq_true, List.isEmpty,
      and_self, and_true, true_and, if_true, if_false, Int.reduceMod,
      Int.reduceToNat, Int.reduceLT, Nat.cast_ofNat, Nat.cast_zero, Nat.reduceMod,
      Nat.reduceDiv, mul_zero, add_zero, Nat.reduceEqDiff, or_false, false_or, or_self,
      and_false, false_and, Int.reduceLE, Int.reduceAdd, Int.reduceNeg, Int.reduceSub,
      Nat.reduceLT, Nat.reduceSub, Nat.cast_one,
      List.nil_append, List.cons_append, List.append_nil, String.reduceBEq, String.reduceEq,
      ne_eq, not_false_iff, not_true, eq_self_iff_true]
    rw [show runLoop false (19:ℕ) = runLoop false (Nat.succ 18) from rfl, runLoop.eq_2]
    simp only [findCurrentLine, lookupLine, List.lookup, Nat.reduceBEq, getNextLine, findLineGE,
      List.head?, List.drop, Option.isSome_some, Option.isSome_none, Option.getD_some,
      Option.getD_none, Option.isNone_some, Option.isNone_none,
      Option.map_some', Option.map_none', execParts, execStmt, cmdPrint, printItemsLoop,
      cmdFor, cmdForInit, cmdNext, fastCountdown, cmdLetVar, cmdLetArr, cmdGoto, cmdGotoNat,
      cmdGosub, cmdReturn, pyListSet, pyListGet, autoArr,
      lookupArr, setArr, List.replicate, List.set, List.get?, List.length,
      evalExpr, asInt, asQ, peekCore, normAddr, pyInt_ofNat, pyInt_zero, pyInt_one,
      qOnePlusOne, qTwoPlusOne, qThreePlusOne,
      qltZeroOne, qltThreeTwo, qltTwoThree, qltThreeThree, qltThreeFour,
      lookupVar, setVar, setAssoc, truthy, bne_self_eq_false, crashKind, outputOf, stateOf,
      reduceIte, Nat.reduceAdd, Nat.reduceLeDiff, Bool.false_eq_true, List.isEmpty,
      and_self, and_true, true_and, if_true, if_false, Int.reduceMod,
      Int.reduceToNat, Int.reduceLT, Nat.cast_ofNat, Nat.cast_zero, Nat.reduceMod,
      Nat.reduceDiv, mul_zero, add_zero, Nat.reduceEqDiff, or_false, false_or, or_self,
      and_false, false_and, Int.reduceLE, Int.reduceAdd, Int.reduceNeg, Int.reduceSub,
      Nat.reduceLT, Nat.reduceSub, Nat.cast_one,
      List.nil_append, List.cons_append, List.append_nil, String.reduceBEq, String.reduceEq,
      ne_eq, not_false_iff, not_true, eq_self_iff_true]
    decide

/-- Normalized addresses are invariant under adding one full bank (65536) to a
negative address, because the fold of `cmd_poke` and `PEEK` reduces modulo
65536. -/
theorem normAddr_neg (a : ℤ) (h : a < 0) : normAddr a = normAddr (a + 65536) := by
  unfold normAddr
  split_ifs <;> omega

/-- Core of C9: the poke core is invariant under the negative-address fold. -/
theorem cmdPoke_neg (a v : ℤ) (s : InterpState) (h : a < 0) :
    cmdPoke a v s = cmdPoke (a + 65536) v s := by
  unfold cmdPoke
  rw [normAddr_neg a h]

/-- A `POKE` statement on numeric literals always succeeds with `cmdPoke`. -/
theorem execStmt_poke (fast : Bool) (fuel : ℕ) (a v : ℤ) (s : InterpState) :
    execStmt fast (fuel + 1) s (.poke (.num (a : ℚ)) (.num (v : ℚ))) =
      .ok (cmdPoke a v s) := by
  have h1 : execStmt fast (fuel + 1) s (.poke (.num (a : ℚ)) (.num (v : ℚ))) =
      cmdPokeStmt s (.num (a : ℚ)) (.num (v : ℚ)) := rfl
  rw [h1]
  simp only [cmdPokeStmt, evalExpr, asInt, pyInt_intCast]

/-- The soft-switch dispatch either leaves the byte memory alone or (for the
error-handler address) rewrites cell 216 with the same value. -/
theorem pokeEffects_memory (addr val : ℕ) (s1 : InterpState) :
    (pokeEffects addr val s1).memory = s1.memory ∨
    (pokeEffects addr val s1).memory = updMem s1.memory 216 val := by
  by_cases h216 : addr = 216
  · subst h216
    right
    simp only [pokeEffects, Nat.reduceEqDiff, if_false, reduceIte]
    split_ifs <;> rfl
  · left
    simp only [pokeEffects, apply_ite InterpState.memory, h216, if_false, ite_self]

/-- After a poke, the normalized target cell holds the low byte of the value. -/
theorem cmdPoke_memory (a v : ℤ) (s : InterpState) :
    (cmdPoke a v s).memory (normAddr a) = (v % 256).toNat := by
  have hc : cmdPoke a v s =
      pokeEffects (normAddr a) (lowByte v)
        { s with memory := updMem s.memory (normAddr a) (lowByte v) } := rfl
  rw [hc]
  rcases pokeEffects_memory (normAddr a) (lowByte v)
      { s with memory := updMem s.memory (normAddr a) (lowByte v) } with h | h <;>
    rw [h] <;> simp [updMem, lowByte]

/-- A poke keeps every memory cell below 256. -/
theorem cmdPoke_memInv (a v : ℤ) (s : InterpState) (h : memInv s) :
    memInv (cmdPoke a v s) := by
  intro i
  have hc : cmdPoke a v s =
      pokeEffects (normAddr a) (lowByte v)
        { s with memory := updMem s.memory (normAddr a) (lowByte v) } := rfl
  rw [hc]
  have hb : lowByte v < 256 := by unfold lowByte; omega
  have h1 : ∀ j, updMem s.memory (normAddr a) (lowByte v) j < 256 := by
    intro j
    unfold updMem
    split_ifs
    · exact hb
    · exact h j
  rcases pokeEffects_memory (normAddr a) (lowByte v)
      { s with memory := updMem s.memory (normAddr a) (lowByte v) } with h2 | h2 <;> rw [h2]
  · exact h1 i
  · unfold updMem
    split_ifs
    · exact hb
    · exact h1 i

/-- The memory defaults written by `reset` are bytes. -/
theorem memInv_initState : memInv initState := by
  intro i
  show initMemory i < 256
  unfold initMemory
  split_ifs <;> omega

/-- C7: `cmd_gosub` pushes the frame `(current line, current part index + 1)`
— the statement just after the call site — before jumping to an existing
target; `cmd_return` pops the top frame and resumes exactly there through
`pending_statement_index` (mid-line when such a part exists); the GOSUB
scenario of section 8 therefore prints `A` then `B`; and `RETURN` on an
empty GOSUB stack raises Return without gosub. -/
theorem c7_gosub_return_midline :
    (∀ (fast : Bool) (fuel : ℕ) (s : InterpState) (n : ℕ),
        (lookupLine s.program n).isSome = true →
        execStmt fast (fuel + 1) s (.gosub (.num (n : ℚ))) =
          .ok { s with gosubStack := (s.pc, s.currentPartIndex + 1) :: s.gosubStack,
                       pc := n, pcChanged := true }) ∧
    (∀ (fast : Bool) (fuel : ℕ) (s : InterpState) (l p : ℕ) (rest : List (ℕ × ℕ)),
        s.gosubStack = (l, p) :: rest →
        execStmt fast (fuel + 1) s .ret =
          .ok { s with gosubStack := rest, pc := l,
                       pendingStatementIndex := some p, pcChanged := true }) ∧
    outputOf (runProgramFrom true 56 (setProgram initState progGosub)) = ("A\nB\n") ∧
    (∀ (fast : Bool) (fuel : ℕ) (s : InterpState),
        s.gosubStack = [] →
        execStmt fast (fuel + 1) s .ret =
          .error (.applesoft ("Return without gosub"), s)) := by
  refine ⟨?_, ?_, ?_, ?_⟩
  · intro fast fuel s n h
    obtain ⟨parts, hp⟩ := Option.isSome_iff_exists.mp h
    simp only [execStmt, cmdGosub, evalExpr, asInt, pyInt_natCast, Int.toNat_natCast,
      hp, Option.isNone_some, Bool.false_eq_true, or_false]
    rw [if_neg (not_lt.mpr (Int.natCast_nonneg n))]
  · intro fast fuel s l p rest h
    simp only [execStmt, cmdReturn, h]
  ·
    simp only [progGosub, runProgramFrom, runInit, setProgram, initState, List.isEmpty,
      List.head?, reduceIte, Nat.reduceBEq, Nat.reduceAdd, Bool.false_eq_true]
    rw [show runLoop true (56:ℕ) = runLoop true (Nat.succ 55) from rfl, runLoop.eq_2]
    simp only [findCurrentLine, lookupLine, List.lookup, Nat.reduceBEq, getNextLine, findLineGE,
      List.head?, List.drop, Option.isSome_some, Option.isSome_none, Option.getD_some,
      Option.getD_none, Option.isNone_some, Option.isNone_none,
      Option.map_some', Option.map_none', execParts, execStmt, cmdPrint, printItemsLoop,
      cmdFor, cmdForInit, cmdNext, fastCountdown, cmdLetVar, cmdLetArr, cmdGoto, cmdGotoNat,
      cmdGosub, cmdReturn, pyListSet, pyListGet, autoArr,
      lookupArr, setArr, List.replicate, List.set, List.get?, List.length,
      evalExpr, asInt, asQ, peekCore, normAddr, pyInt_ofNat, pyInt_zero, pyInt_one,
      qOnePlusOne, qTwoPlusOne, qThreePlusOne,
      qltZeroOne, qltThreeTwo, qltTwoThree, qltThreeThree, qltThreeFour,
      lookupVar, setVar, setAssoc, truthy, bne_self_eq_false, crashKind, outputOf, stateOf,
      reduceIte, Nat.reduceAdd, Nat.reduceLeDiff, Bool.false_eq_true, List.isEmpty,
      and_self, and_true, true_and, if_true, if_false, Int.reduceMod,
      Int.reduceToNat, Int.reduceLT, Nat.cast_ofNat, Nat.cast_zero, Nat.reduceMod,
      Nat.reduceDiv, mul_zero, add_zero, Nat.reduceEqDiff, or_false, false_or, or_self,
      and_false, false_and, Int.reduceLE, Int.reduceAdd, Int.reduceNeg, Int.reduceSub,
      Nat.reduceLT, Nat.reduceSub, Nat.cast_one,
      List.nil_append, List.cons_append, List.append_nil, String.reduceBEq, String.reduceEq,
      ne_eq, not_false_iff, not_true, eq_self_iff_true]
    rw [show runLoop true (55:ℕ) = runLoop true (Nat.succ 54) from rfl, runLoop.eq_2]
    simp only [findCurrentLine, lookupLine, List.lookup, Nat.reduceBEq, getNextLine, findLineGE,
      List.head?, List.drop, Option.isSome_some, Option.isSome_none, Option.getD_some,
      Option.getD_none, Option.isNone_some, Option.isNone_none,
      Option.map_some', Option.map_none', execParts, execStmt, cmdPrint, printItemsLoop,
      cmdFor, cmdForInit, cmdNext, fastCountdown, cmdLetVar, cmdLetArr, cmdGoto, cmdGotoNat,
      cmdGosub, cmdReturn, pyListSet, pyListGet, autoArr,
      lookupArr, setArr, List.replicate, List.set, List.get?, List.length,
      evalExpr, asInt, asQ, peekCore, normAddr, pyInt_ofNat, pyInt_zero, pyInt_one,
      qOnePlusOne, qTwoPlusOne, qThreePlusOne,
      qltZeroOne, qltThreeTwo, qltTwoThree, qltThreeThree, qltThreeFour,
      lookupVar, setVar, setAssoc, truthy, bne_self_eq_false, crashKind, outputOf, stateOf,
      reduceIte, Nat.reduceAdd, Nat.reduceLeDiff, Bool.false_eq_true, List.isEmpty,
      and_self, and_true, true_and, if_true, if_false, Int.reduceMod,
      Int.reduceToNat, Int.reduceLT, Nat.cast_ofNat, Nat.cast_zero, Nat.reduceMod,
      Nat.reduceDiv, mul_zero, add_zero, Nat.reduceEqDiff, or_false, false_or, or_self,
      and_false, false_and, Int.reduceLE, Int.reduceAdd, Int.reduceNeg, Int.reduceSub,
      Nat.reduceLT, Nat.reduceSub, Nat.cast_one,
      List.nil_append, List.cons_append, List.append_nil, String.reduceBEq, String.reduceEq,
      ne_eq, not_false_iff, not_true, eq_self_iff_true]
    rw [show runLoop true (54:ℕ) = runLoop true (Nat.succ 53) from rfl, runLoop.eq_2]
    simp only [findCurrentLine, lookupLine, List.lookup, Nat.reduceBEq, getNextLine, findLineGE,
      List.head?, List.drop, Option.isSome_some, Option.isSome_none, Option.getD_some,
      Option.getD_none, Option.isNone_some, Option.isNone_none,
      Option.map_some', Option.map_none', execParts, execStmt, cmdPrint, printItemsLoop,
      cmdFor, cmdForInit, cmdNext, fastCountdown, cmdLetVar, cmdLetArr, cmdGoto, cmdGotoNat,
      cmdGosub, cmdReturn, pyListSet, pyListGet, autoArr,
      lookupArr, setArr, List.replicate, List.set, List.get?, List.length,
      evalExpr, asInt, asQ, peekCore, normAddr, pyInt_ofNat, pyInt_zero, pyInt_one,
      qOnePlusOne, qTwoPlusOne, qThreePlusOne,
      qltZeroOne, qltThreeTwo, qltTwoThree, qltThreeThree, qltThreeFour,
      lookupVar, setVar, setAssoc, truthy, bne_self_eq_false, crashKind, outputOf, stateOf,
      reduceIte, Nat.reduceAdd, Nat.reduceLeDiff, Bool.false_eq_true, List.isEmpty,
      and_self, and_true, true_and, if_true, if_false, Int.reduceMod,
      Int.reduceToNat, Int.reduceLT, Nat.cast_ofNat, Nat.cast_zero, Nat.reduceMod,
      Nat.reduceDiv, mul_zero, add_zero, Nat.reduceEqDiff, or_false, false_or, or_self,
      and_false, false_and, Int.reduceLE, Int.reduceAdd, Int.reduceNeg, Int.reduceSub,
      Nat.reduceLT, Nat.reduceSub, Nat.cast_one,
      List.nil_append, List.cons_append, List.append_nil, String.reduceBEq, String.reduceEq,
      ne_eq, not_false_iff, not_true, eq_self_iff_true]
    rw [show runLoop true (53:ℕ) = runLoop true (Nat.succ 52) from rfl, runLoop.eq_2]
    simp only [findCurrentLine, lookupLine, List.lookup, Nat.reduceBEq, getNextLine, findLineGE,
      List.head?, List.drop, Option.isSome_some, Option.isSome_none, Option.getD_some,
      Option.getD_none, Option.isNone_some, Option.isNone_none,
      Option.map_some', Option.map_none', execParts, execStmt, cmdPrint, printItemsLoop,
      cmdFor, cmdForInit, cmdNext, fastCountdown, cmdLetVar, cmdLetArr, cmdGoto, cmdGotoNat,
      cmdGosub, cmdReturn, pyListSet, pyListGet, autoArr,
      lookupArr, setArr, List.replicate, List.set, List.get?, List.length,
      evalExpr, asInt, asQ, peekCore, normAddr, pyInt_ofNat, pyInt_zero, pyInt_one,
      qOnePlusOne, qTwoPlusOne, qThreePlusOne,
      qltZeroOne, qltThreeTwo, qltTwoThree, qltThreeThree, qltThreeFour,
      lookupVar, setVar, setAssoc, truthy, bne_self_eq_false, crashKind, outputOf, stateOf,
      reduceIte, Nat.reduceAdd, Nat.reduceLeDiff, Bool.false_eq_true, List.isEmpty,
      and_self, and_true, true_and, if_true, if_false, Int.reduceMod,
      Int.reduceToNat, Int.reduceLT, Nat.cast_ofNat, Nat.cast_zero, Nat.reduceMod,
      Nat.reduceDiv, mul_zero, add_zero, Nat.reduceEqDiff, or_false, false_or, or_self,
      and_false, false_and, Int.reduceLE, Int.reduceAdd, Int.reduceNeg, Int.reduceSub,
      Nat.reduceLT, Nat.reduceSub, Nat.cast_one,
      List.nil_append, List.cons_append, List.append_nil, String.reduceBEq, String.reduceEq,
      ne_eq, not_false_iff, not_true, eq_self_iff_true]
    rw [show runLoop true (52:ℕ) = runLoop true (Nat.succ 51) from rfl, runLoop.eq_2]
    simp only [findCurrentLine, lookupLine, List.lookup, Nat.reduceBEq, getNextLine, findLineGE,
      List.head?, List.drop, Option.isSome_some, Option.isSome_none, Option.getD_some,
      Option.getD_none, Option.isNone_some, Option.isNone_none,
      Option.map_some', Option.map_none', execParts, execStmt, cmdPrint, printItemsLoop,
      cmdFor, cmdForInit, cmdNext, fastCountdown, cmdLetVar, cmdLetArr, cmdGoto, cmdGotoNat,
      cmdGosub, cmdReturn, pyListSet, pyListGet, autoArr,
      lookupArr, setArr, List.replicate, List.set, List.get?, List.length,
      evalExpr, asInt, asQ, peekCore, normAddr, pyInt_ofNat, pyInt_zero, pyInt_one,
      qOnePlusOne, qTwoPlusOne, qThreePlusOne,
      qltZeroOne, qltThreeTwo, qltTwoThree, qltThreeThree, qltThreeFour,
      lookupVar, setVar, setAssoc, truthy, bne_self_eq_false, crashKind, outputOf, stateOf,
      reduceIte, Nat.reduceAdd, Nat.reduceLeDiff, Bool.false_eq_true, List.isEmpty,
      and_self, and_true, true_and, if_true, if_false, Int.reduceMod,
      Int.reduceToNat, Int.reduceLT, Nat.cast_ofNat, Nat.cast_zero, Nat.reduceMod,
      Nat.reduceDiv, mul_zero, add_zero, Nat.reduceEqDiff, or_false, false_or, or_self,
      and_false, false_and, Int.reduceLE, Int.reduceAdd, Int.reduceNeg, Int.reduceSub,
      Nat.reduceLT, Nat.reduceSub, Nat.cast_one,
      List.nil_append, List.cons_append, List.append_nil, String.reduceBEq, String.reduceEq,
      ne_eq, not_false_iff, not_true, eq_self_iff_true]
    decide
  · intro fast fuel s h
    simp only [execStmt, cmdReturn, h]

/-- Witness for C7 at concrete inputs: a GOSUB from part 0 of the idle state
pushes the return frame `(0, 1)` and jumps to line 100; a RETURN pops a frame
`(10, 1)` and schedules part 1 of line 10; a RETURN on the empty stack
errors. -/
theorem c7_witness :
    (execStmt true 1 (setProgram initState progGosub) (.gosub (.num ((100 : ℕ) : ℚ))) =
      .ok { setProgram initState progGosub with
            gosubStack := ((setProgram initState progGosub).pc,
              (setProgram initState progGosub).currentPartIndex + 1) ::
              (setProgram initState progGosub).gosubStack,
            pc := 100, pcChanged := true }) ∧
    (execStmt true 1 { initState with gosubStack := [(10, 1)] } .ret =
      .ok { { initState with gosubStack := [(10, 1)] } with
            gosubStack := [], pc := 10,
            pendingStatementIndex := some 1, pcChanged := true }) ∧
    (execStmt true 1 initState .ret =
      .error (.applesoft ("Return without gosub"), initState)) := by
  refine ⟨?_, ?_, ?_⟩
  · exact c7_gosub_return_midline.1 true 0 (setProgram initState progGosub) 100 (by decide)
  · exact c7_gosub_return_midline.2.1 true 0 _ 10 1 [] rfl
  · exact c7_gosub_return_midline.2.2.2 true 0 initState rfl

/-- C8: a `GOTO` or `GOSUB` whose target line is not in the program store
raises Undefined statement, and the carried state is exactly the input state:
the program counter has not advanced and (for GOSUB) no frame was pushed. -/
theorem c8_undefined_statement_preserves_state :
    (∀ (fast : Bool) (fuel : ℕ) (s : InterpState) (n : ℕ),
        lookupLine s.program n = none →
        execStmt fast (fuel + 1) s (.goto (.num (n : ℚ))) =
          .error (.applesoft (("Undefined statement: ") ++ toString ((n : ℤ))), s)) ∧
    (∀ (fast : Bool) (fuel : ℕ) (s : InterpState) (n : ℕ),
        lookupLine s.program n = none →
        execStmt fast (fuel + 1) s (.gosub (.num (n : ℚ))) =
          .error (.applesoft (("Undefined statement: ") ++ toString ((n : ℤ))), s)) := by
  constructor
  · intro fast fuel s n h
    simp only [execStmt, cmdGoto, evalExpr, asInt, pyInt_natCast, Int.toNat_natCast, h,
      Option.isNone_none, or_true, if_true]
  · intro fast fuel s n h
    simp only [execStmt, cmdGosub, evalExpr, asInt, pyInt_natCast, Int.toNat_natCast, h,
      Option.isNone_none, or_true, if_true]

/-- Witness for C8: jumping to line 50 of the empty program store errors with
the state unchanged, for both GOTO and GOSUB. -/
theorem c8_witness :
    (execStmt true 1 initState (.goto (.num ((50 : ℕ) : ℚ))) =
      .error (.applesoft (("Undefined statement: ") ++ toString ((50 : ℕ) : ℤ)), initState)) ∧
    (execStmt true 1 initState (.gosub (.num ((50 : ℕ) : ℚ))) =
      .error (.applesoft (("Undefined statement: ") ++ toString ((50 : ℕ) : ℤ)), initState)) :=
  ⟨c8_undefined_statement_preserves_state.1 true 0 initState 50 rfl,
   c8_undefined_statement_preserves_state.2 true 0 initState 50 rfl⟩

/-- C9: a memory access through `POKE` or `PEEK` at a negative address
behaves exactly as the same access at the address plus 65536, and in
particular `POKE -16301,0` equals `POKE 49235,0`: both set the mixed-mode
flag and store byte 0 at cell 49235. -/
theorem c9_negative_address_fold :
    (∀ (fast : Bool) (fuel : ℕ) (a v : ℤ) (s : InterpState), a < 0 →
        execStmt fast (fuel + 1) s (.poke (.num (a : ℚ)) (.num (v : ℚ))) =
          execStmt fast (fuel + 1) s
            (.poke (.num ((a + 65536 : ℤ) : ℚ)) (.num (v : ℚ)))) ∧
    (∀ (a : ℤ) (s : InterpState), a < 0 →
        evalExpr s (.peek (.num (a : ℚ))) =
          evalExpr s (.peek (.num ((a + 65536 : ℤ) : ℚ)))) ∧
    cmdPoke (-16301) 0 initState = cmdPoke 49235 0 initState ∧
    (cmdPoke (-16301) 0 initState).hgrMixed = true ∧
    (cmdPoke (-16301) 0 initState).memory 49235 = 0 := by
  refine ⟨?_, ?_, ?_, by decide, by decide⟩
  · intro fast fuel a v s h
    rw [execStmt_poke, execStmt_poke, cmdPoke_neg a v s h]
  · intro a s h
    simp only [evalExpr, asInt, pyInt_intCast]
    rw [normAddr_neg a h]
  · have h9 := cmdPoke_neg (-16301) 0 initState (by norm_num)
    rw [show ((-16301 : ℤ) + 65536) = 49235 from by norm_num] at h9
    exact h9

/-- Witness for C9 at the concrete soft-switch address: the two POKE
statements and the two PEEK expressions coincide at -16301 and 49235. -/
theorem c9_witness :
    (execStmt true 1 initState (.poke (.num ((-16301 : ℤ) : ℚ)) (.num ((0 : ℤ) : ℚ))) =
      execStmt true 1 initState
        (.poke (.num (((-16301 : ℤ) + 65536 : ℤ) : ℚ)) (.num ((0 : ℤ) : ℚ)))) ∧
    (evalExpr initState (.peek (.num ((-16301 : ℤ) : ℚ))) =
      evalExpr initState (.peek (.num (((-16301 : ℤ) + 65536 : ℤ) : ℚ)))) :=
  ⟨c9_negative_address_fold.1 true 0 (-16301) 0 initState (by norm_num),
   c9_negative_address_fold.2.1 (-16301) initState (by norm_num)⟩

/-- C10: a `POKE` with any integer value never raises an error (there is no
Illegal Quantity check): the statement succeeds, the stored byte is the value
reduced modulo 256, a poke preserves the all-cells-are-bytes invariant, the
reset memory satisfies it, and hence it holds after any sequence of pokes. -/
theorem c10_poke_masks_byte_and_never_errors :
    (∀ (fast : Bool) (fuel : ℕ) (a v : ℤ) (s : InterpState),
        execStmt fast (fuel + 1) s (.poke (.num (a : ℚ)) (.num (v : ℚ))) =
          .ok (cmdPoke a v s)) ∧
    (∀ (a v : ℤ) (s : InterpState),
        (cmdPoke a v s).memory (normAddr a) = (v % 256).toNat) ∧
    (∀ (a v : ℤ) (s : InterpState), memInv s → memInv (cmdPoke a v s)) ∧
    memInv initState ∧
    (∀ (ps : List (ℤ × ℤ)) (s : InterpState), memInv s → memInv (applyPokes ps s)) := by
  refine ⟨execStmt_poke, cmdPoke_memory, cmdPoke_memInv, memInv_initState, ?_⟩
  intro ps
  induction ps with
  | nil => intro s h; simpa [applyPokes] using h
  | cons p rest ih =>
      intro s h
      have h2 : applyPokes (p :: rest) s = applyPokes rest (cmdPoke p.1 p.2 s) := by
        simp [applyPokes]
      rw [h2]
      exact ih _ (cmdPoke_memInv p.1 p.2 s h)

/-- Witness for C10: instantiating the poke-invariant parts at the reset
state, whose memory bound is itself part of the theorem. -/
theorem c10_witness :
    memInv (cmdPoke (-16301) 999 initState) ∧
    memInv (applyPokes [((-16301 : ℤ), (999 : ℤ)), ((49235 : ℤ), (-1 : ℤ))] initState) :=
  ⟨c10_poke_masks_byte_and_never_errors.2.2.1 (-16301) 999 initState
      c10_poke_masks_byte_and_never_errors.2.2.2.1,
   c10_poke_masks_byte_and_never_errors.2.2.2.2
      [((-16301 : ℤ), (999 : ℤ)), ((49235 : ℤ), (-1 : ℤ))]
      initState c10_poke_masks_byte_and_never_errors.2.2.2.1⟩

end Applesoft
